import Mathlib

/-!
Verification of the auto-lip-rigger Maya tool (files auto_lip_rigger.py and
RibbonCode_v015.py) through a shallow embedding.

The tool is a thin orchestration layer over the Maya scene API (pymel).  We
model it as a pure function from the stored GUI state and a host oracle (the
results Maya returns for geometric queries) to the sequence of scene-mutating
host-API invocations the tool issues, together with the updated tool state.
Pure reads (pointPosition, polyEvaluate, attribute gets, bounding boxes,
closest-point queries) are supplied by the oracle; every call that creates,
connects, configures, parents, constrains or deletes a scene node is recorded
in the trace in program order.  Numeric parameters are modelled as rationals.
Node names are modelled as the literal strings the Python f-strings build.
-/

namespace LipRig

/-- Boolean list-prefix test, used to model the Python substring machinery. -/
def isPre : List Char → List Char → Bool
  | [], _ => true
  | _ :: _, [] => false
  | a :: as, b :: bs => a == b && isPre as bs

/-- Glob matching with the single wildcard character used by the Maya ls
patterns of the tool (the character *).  A star tries every possible drop of
the candidate string; other characters must match literally. -/
def globL : List Char → List Char → Bool
  | [], s => s.isEmpty
  | p :: ps, s =>
    if p = '*' then (List.range (s.length + 1)).any (fun k => globL ps (s.drop k))
    else
      match s with
      | [] => false
      | c :: cs => p == c && globL ps cs

/-- Glob matching on strings, modelling the pm.ls wildcard name filter. -/
def globMatch (pat s : String) : Bool := globL pat.data s.data

/-- Index of the first occurrence of a pattern inside a list, or none.  This
models the Python str.index and str.find operations. -/
def findSubL (pat : List Char) : List Char → Option Nat
  | [] => if pat.isEmpty then some 0 else none
  | c :: cs => if isPre pat (c :: cs) then some 0 else (findSubL pat cs).map (· + 1)

/-- First occurrence of a substring in a string, or none (Python str.find). -/
def findSub (pat s : String) : Option Nat := findSubL pat.data s.data

/-- A 3-vector with rational coordinates. -/
structure Vec3 where
  x : ℚ
  y : ℚ
  z : ℚ
deriving DecidableEq

/-- Dot product of two vectors, modelling Vector.dot of pymel. -/
def dot3 (a b : Vec3) : ℚ := a.x * b.x + a.y * b.y + a.z * b.z

/-- One scene-mutating host-API invocation, as issued through pymel.  Node
names are the strings the Python code builds; utility nodes the code creates
without an explicit name carry the Maya default name (type name plus 1). -/
inductive ApiCall where
  | select (targets : List String)
  | selectClear
  | selectCurvePoint (crv : String) (param : ℚ)
  | selectCV (ctrl : String)
  | polyToCurve (name : String)
  | rebuildCurve (name : String)
  | createNode (typ : String) (name : String)
  | createNodeP (typ : String) (name : String) (parentNode : String)
  | connectAttr (srcNode srcAttr dstNode dstAttr : String)
  | setAttrQ (node attr : String) (value : ℚ)
  | setAttrB (node attr : String) (value : Bool)
  | setAttrV3 (node attr : String) (value : Vec3)
  | setAttrKL (node attr : String)
  | loft (crv1 crv2 name : String)
  | reverseSurface (surf : String)
  | deleteNode (name : String)
  | deleteCH (name : String)
  | joint (name : String) (radius : ℚ)
  | jointAt (name : String) (radius : ℚ) (pos orient : Vec3)
  | group (name : String)
  | parentTo (child parentNode : String)
  | parentConstraint (srcs : List String) (dst : String) (skipRotate : List String)
      (maintainOffset : Bool) (weight : ℚ)
  | orientConstraint (src dst : String) (maintainOffset : Bool)
  | skinCluster (joints : List String) (surf name : String)
  | circle (name : String) (radius : ℚ)
  | melEval (cmd : String)
  | move (dx dy dz : ℚ)
  | printMsg (msg : String)
deriving DecidableEq

/-- World bounding box as returned by pm.exactWorldBoundingBox: the list
(xmin, ymin, zmin, xmax, ymax, zmax). -/
structure BBoxQ where
  xmin : ℚ
  ymin : ℚ
  zmin : ℚ
  xmax : ℚ
  ymax : ℚ
  zmax : ℚ
deriving DecidableEq

/-- The host oracle: the values Maya returns for the pure geometric queries
the tool performs.  Deterministic by construction, reflecting that Maya
answers a fixed scene identically. -/
structure Host where
  pointPos : String → Vec3
  nearestParam : String → Vec3 → ℚ
  curvePoint : String → Vec3
  dist : Vec3 → Vec3 → ℚ
  edgeCount : List String → Nat
  spansU : Nat
  spansV : Nat
  surfNormal : Vec3
  bbox : BBoxQ
  closestU : ℚ → ℚ → ℚ → ℚ
  folPos : ℚ → ℚ → Vec3
  folRot : ℚ → ℚ → Vec3

/-- A control joint as created by set_control_joints: its name, the surface
parameters it was placed at, and its translate and orient values. -/
structure JointRec where
  name : String
  u : ℚ
  v : ℚ
  pos : Vec3
  orient : Vec3
deriving DecidableEq

/-- The mutable state of the ribbon_lip_rigger dialog: the GUI text fields,
the stored selections, and the instance attributes set in the constructor and
updated by the methods.  The Python initial value 0 of the name-valued
attributes is modelled as the empty string, and the control_joint_grp
attribute (0 until segment_joints runs) as an Option that also carries the
joints parented under the group, so that deleting the group deletes them. -/
structure RigState where
  prefix_text : String
  first_edge_loop_text : String
  second_edge_loop_text : String
  vertex_text : String
  inbetween_joints_text : String
  first_edge_Loop : List String
  second_edge_Loop : List String
  vertex_on_edge : String
  pfx : String
  v_value : ℚ
  uValue_right_corner : ℚ
  uValue_left_corner : ℚ
  uValue_upper_corner : ℚ
  uValue_lower_corner : ℚ
  segments_between_corner_points : ℚ
  direction_counter_clockwise : Bool
  size : ℚ
  curve_1 : String
  curve_2 : String
  lofted_surface : String
  deformer_grp : String
  follicle_grp : String
  binding_joint_grp : String
  controller_grp : String
  control_joint_grp : Option (String × List JointRec)
  right_corner_joint : JointRec
  left_corner_joint : JointRec
  upper_corner_joint : JointRec
  lower_corner_joint : JointRec
deriving DecidableEq

/-- The two strings in which the two source files differ: the window title
set in the constructor, and the tail of the control-joints group name built
in segment_joints and finish_rig (auto_lip_rigger.py writes
prefix_control_ joints_grp with a space, RibbonCode_v015.py writes
prefix_control_joints_grp). -/
structure ToolCfg where
  winName : String
  ctrlGrpTail : String
deriving DecidableEq

/-- Configuration of auto_lip_rigger.py. -/
def autoCfg : ToolCfg := ⟨"Auto Lip Rigger", "_control_ joints_grp"⟩

/-- Configuration of RibbonCode_v015.py. -/
def ribbonCfg : ToolCfg := ⟨"Mouth Rigger", "_control_joints_grp"⟩

/-- get_edge_curve: selects the edge loop, converts it to a curve named
prefix_00N_crv, rebuilds it in place and clears the selection. -/
def get_edge_curve (selectedEdge : List String) (pfx1 : String) (numCurve : Nat) :
    List ApiCall × String :=
  let curve := pfx1 ++ "_00" ++ Nat.repr numCurve ++ "_crv"
  ([ .select selectedEdge, .polyToCurve curve, .rebuildCurve curve, .selectClear ], curve)

/-- get_edge_count: selects the edge loop, evaluates its edge count (a pure
read answered by the host oracle) and clears the selection. -/
def get_edge_count (o : Host) (selectedEdge : List String) : List ApiCall × Nat :=
  ([ .select selectedEdge, .selectClear ], o.edgeCount selectedEdge)

/-- move_Seam: creates a nearestPointOnCurve node, feeds it the vertex
position and the curve, selects the curve point at the resulting parameter,
runs the MoveCurveSeam mel command and deletes the utility node. -/
def move_Seam (o : Host) (vertex_position : Vec3) (crv : String) : List ApiCall :=
  [ .createNode ("nearestPointOnCurve") ("nearestPointOnCurve1"),
    .setAttrV3 ("nearestPointOnCurve1") ("inPosition") vertex_position,
    .connectAttr (crv ++ "Shape") ("worldSpace[0]") ("nearestPointOnCurve1") ("inputCurve"),
    .selectCurvePoint crv (o.nearestParam crv vertex_position),
    .melEval ("MoveCurveSeam;"),
    .deleteNode ("nearestPointOnCurve1"),
    .selectClear ]

/-- get_reference_size: samples a point on each curve with a pointOnCurveInfo
node and returns the distance between the two points. -/
def get_reference_size (o : Host) (crv_1 crv_2 : String) : List ApiCall × ℚ :=
  ([ .createNode ("pointOnCurveInfo") ("pointOnCurveInfo1"),
     .connectAttr (crv_1 ++ "Shape") ("worldSpace[0]") ("pointOnCurveInfo1") ("inputCurve"),
     .connectAttr (crv_2 ++ "Shape") ("worldSpace[0]") ("pointOnCurveInfo1") ("inputCurve"),
     .deleteNode ("pointOnCurveInfo1") ],
   o.dist (o.curvePoint crv_1) (o.curvePoint crv_2))

/-- get_lofted_surface: moves the seam of both curves to the point nearest
the chosen vertex, lofts them into prefix_001_NURBSPlane, reverses the loft
normals when the U span count is below the V span count, deletes history,
samples the surface normal with a pointOnSurfaceInfo node, and reverses the
surface when the dot product of (0,0,1) with that normal is negative. -/
def get_lofted_surface (o : Host) (crvSeam_1 crvSeam_2 vertex pfx1 : String) :
    List ApiCall × String :=
  let position := o.pointPos vertex
  let lofted_surface := pfx1 ++ "_001_NURBSPlane"
  (move_Seam o position crvSeam_1 ++ move_Seam o position crvSeam_2
    ++ [ .loft crvSeam_1 crvSeam_2 lofted_surface ]
    ++ (if o.spansU < o.spansV then [ .setAttrB ("loft1") ("reverseSurfaceNormals") true ] else [])
    ++ [ .deleteCH lofted_surface,
         .createNode ("pointOnSurfaceInfo") ("pointOnSurfaceInfo1"),
         .connectAttr (lofted_surface ++ "Shape") ("worldSpace[0]")
           ("pointOnSurfaceInfo1") ("inputSurface") ]
    ++ (if dot3 ⟨0, 0, 1⟩ o.surfNormal < 0 then [ .reverseSurface lofted_surface ] else [])
    ++ [ .deleteNode ("pointOnSurfaceInfo1") ],
   lofted_surface)

/-- One iteration of the create_surface_ribbons loop: builds the follicle
transform and shape, wires them to the surface, sets the surface parameters,
creates the binding joint, parents both, and constrains the joint to the
follicle with a parent constraint skipping all rotate axes plus an orient
constraint. -/
def ribbonStep (lofted_surface pfx1 follicle_grp binding_joint_grp : String)
    (u_count : Nat) (size : ℚ) (i : Nat) : List ApiCall :=
  let fol_rbn := pfx1 ++ "_rbn_" ++ Nat.repr (i + 1) ++ "_fol"
  let folShape_rbn := fol_rbn ++ "Shape"
  let rbn_joint := pfx1 ++ "_" ++ Nat.repr (i + 1) ++ "_bnd_jnt"
  [ .createNode ("transform") fol_rbn,
    .createNodeP ("follicle") folShape_rbn fol_rbn,
    .connectAttr folShape_rbn ("outRotate") fol_rbn ("rotate"),
    .connectAttr folShape_rbn ("outTranslate") fol_rbn ("translate"),
    .connectAttr lofted_surface ("worldMatrix") fol_rbn ("inputWorldMatrix"),
    .connectAttr lofted_surface ("local") fol_rbn ("inputSurface"),
    .setAttrQ folShape_rbn ("parameterU") (0 + (1 / (u_count : ℚ)) * (i : ℚ)),
    .setAttrQ folShape_rbn ("parameterV") (1/2),
    .joint rbn_joint (size / 3),
    .parentTo rbn_joint binding_joint_grp,
    .parentTo fol_rbn follicle_grp,
    .parentConstraint [fol_rbn] rbn_joint ["x", "y", "z"] false 1,
    .orientConstraint fol_rbn rbn_joint false,
    .selectClear ]

/-- Concatenation of the lists produced by the iterations of a loop over
range n. -/
def iterN {α : Type} (n : Nat) (f : Nat → List α) : List α :=
  ((List.range n).map f).flatten

/-- create_surface_ribbons: the for-loop over range u_count. -/
def create_surface_ribbons (lofted_surface pfx1 follicle_grp binding_joint_grp : String)
    (u_count : Nat) (size : ℚ) : List ApiCall :=
  iterN u_count (ribbonStep lofted_surface pfx1 follicle_grp binding_joint_grp u_count size)

/-- get_corner_point: creates a closestPointOnSurface node, feeds it the
surface and the query position, reads parameterU (oracle) and deletes it. -/
def get_corner_point (o : Host) (valueX valueY valueZ : ℚ) (lofted_surface : String) :
    List ApiCall × ℚ :=
  ([ .createNode ("closestPointOnSurface") ("closestPointOnSurface1"),
     .connectAttr (lofted_surface ++ "Shape") ("worldSpace[0]")
       ("closestPointOnSurface1") ("inputSurface"),
     .setAttrQ ("closestPointOnSurface1") ("inPositionX") valueX,
     .setAttrQ ("closestPointOnSurface1") ("inPositionY") valueY,
     .setAttrQ ("closestPointOnSurface1") ("inPositionZ") valueZ,
     .deleteNode ("closestPointOnSurface1") ],
   o.closestU valueX valueY valueZ)

/-- set_control_joints: rides a temporary follicle named follicleCorner on
the surface at (u, v), creates the control joint prefix_ctrl_jnt at the
follicle position and orientation, then deletes the follicle. -/
def set_control_joints (o : Host) (u_value v_value : ℚ) (lofted_surface pfx0 : String)
    (size : ℚ) : List ApiCall × JointRec :=
  let temp_joint := pfx0 ++ "_ctrl_jnt"
  ([ .createNode ("transform") ("follicleCorner"),
     .createNodeP ("follicle") ("follicleCornerShape") ("follicleCorner"),
     .connectAttr ("follicleCornerShape") ("outRotate") ("follicleCorner") ("rotate"),
     .connectAttr ("follicleCornerShape") ("outTranslate") ("follicleCorner") ("translate"),
     .connectAttr lofted_surface ("worldMatrix") ("follicleCorner") ("inputWorldMatrix"),
     .connectAttr lofted_surface ("local") ("follicleCorner") ("inputSurface"),
     .setAttrQ ("follicleCornerShape") ("parameterU") u_value,
     .setAttrQ ("follicleCornerShape") ("parameterV") v_value,
     .jointAt temp_joint (size / 2) (o.folPos u_value v_value) (o.folRot u_value v_value),
     .deleteNode ("follicleCorner"),
     .selectClear ],
   ⟨temp_joint, u_value, v_value, o.folPos u_value v_value, o.folRot u_value v_value⟩)

/-- create_controller: extracts the controller name as the joint name up to
the first occurrence of _jnt (none models the ValueError str.index raises
when _jnt is absent), then creates the controller group, buffer group and
circle, aligns, constrains the joint to the controller, locks the scale and
visibility channels, sets the override colour and moves the circle points
off the surface. -/
def create_controller (j : JointRec) (main_controller_grp : String) (size : ℚ) :
    Option (List ApiCall × String) :=
  match findSub ("_jnt") j.name with
  | none => none
  | some positionString =>
    let cname := String.mk (j.name.data.take positionString)
    let noSide := (findSub ("_L_") j.name).isNone && (findSub ("_R_") j.name).isNone
    let highlight := (findSub ("_D_") j.name).isSome || (findSub ("_L_") j.name).isSome
        || (findSub ("_U_") j.name).isSome || (findSub ("_R_") j.name).isSome
    some (
      [ .group (cname ++ "_grp"),
        .group (cname ++ "_buffer_grp"),
        .parentTo (cname ++ "_buffer_grp") (cname ++ "_grp"),
        .circle cname (size / 4),
        .parentTo cname (cname ++ "_buffer_grp"),
        .setAttrV3 (cname ++ "_grp") ("translate") j.pos ]
      ++ (if noSide then [ .setAttrV3 (cname ++ "_grp") ("rotate") j.orient ] else [])
      ++ [ .parentConstraint [cname] j.name [] true 1,
        .parentTo (cname ++ "_grp") main_controller_grp,
        .setAttrKL cname ("sx"), .setAttrKL cname ("sy"),
        .setAttrKL cname ("sz"), .setAttrKL cname ("v"),
        .setAttrB (cname ++ "Shape") ("overrideEnabled") true,
        .setAttrQ (cname ++ "Shape") ("overrideColor") (if highlight then 17 else 13),
        .selectCV cname,
        .move 0 0 (size / 4) ],
      cname)

/-- The for-loop of create_blend: the i-th controller of the segment gets a
parent constraint to the side controller with weight 1 - value and one to
the middle controller with weight value, where value = (1/(length+1))*(i+1),
both applied to its buffer group with maintainOffset. -/
def blendPairs (side middle : List String) (seglen : Nat) : Nat → List String → List ApiCall
  | _, [] => []
  | i, c :: cs =>
    let value := (1 / ((seglen : ℚ) + 1)) * ((i : ℚ) + 1)
    [ .parentConstraint side (c ++ "_buffer_grp") [] true (1 - value),
      .parentConstraint middle (c ++ "_buffer_grp") [] true value ]
      ++ blendPairs side middle seglen (i + 1) cs

/-- create_blend: lists the controllers in the scene whose names match the
glob pattern contains*_ctrl and wires each to the side and middle
controllers with complementary weights. -/
def create_blend (scene : List String) (side middle : List String) (contains : String) :
    List ApiCall :=
  let controller_segment := scene.filter (fun c => globMatch (contains ++ "*_ctrl") c)
  blendPairs side middle controller_segment.length 0 controller_segment

/-- create_blend_for_segment_controller: looks up the four main controllers
by exact name and calls create_blend for each quadrant. -/
def create_blend_for_segment_controller (scene : List String) (pfx1 : String) :
    List ApiCall :=
  let controller_left := scene.filter (fun c => globMatch (pfx1 ++ "_L_ctrl") c)
  let controller_right := scene.filter (fun c => globMatch (pfx1 ++ "_R_ctrl") c)
  let controller_middle_up := scene.filter (fun c => globMatch (pfx1 ++ "_U_ctrl") c)
  let controller_middle_down := scene.filter (fun c => globMatch (pfx1 ++ "_D_ctrl") c)
  create_blend scene controller_left controller_middle_up (pfx1 ++ "_LU_")
    ++ create_blend scene controller_left controller_middle_down (pfx1 ++ "_LD_")
    ++ create_blend scene controller_right controller_middle_up (pfx1 ++ "_RU_")
    ++ create_blend scene controller_right controller_middle_down (pfx1 ++ "_RD_")

/-- Vertical midpoint of the surface bounding box, bbx(1) + (bbx(4)-bbx(1))/2. -/
def yMid (o : Host) : ℚ := o.bbox.ymin + (o.bbox.ymax - o.bbox.ymin) / 2

/-- user_input: the Confirm handler.  Reads the prefix text and the stored
selections, builds the deformer group, the two curves, the lofted surface,
the follicle and binding-joint groups and the surface ribbons, hides the
deformer and binding groups, determines the corner U values from the
bounding box, swaps them to 0.25 and 0.75 when the looked-up right value is
below the left one, and places the four corner control joints. -/
def user_input (o : Host) (s : RigState) : List ApiCall × RigState :=
  let p := s.prefix_text
  let deformer_grp := p ++ "_deformer_grp"
  let ec1 := get_edge_curve s.first_edge_Loop p 1
  let ec2 := get_edge_curve s.second_edge_Loop p 2
  let curve_1 := ec1.2
  let curve_2 := ec2.2
  let gec := get_edge_count o s.first_edge_Loop
  let u_count := gec.2
  let grs := get_reference_size o curve_1 curve_2
  let size := grs.2
  let gls := get_lofted_surface o curve_1 curve_2 s.vertex_on_edge p
  let lofted_surface := gls.2
  let follicle_grp := p ++ "_follicle_grp"
  let binding_joint_grp := p ++ "_binding_joints_grp"
  let rib := create_surface_ribbons lofted_surface p follicle_grp binding_joint_grp u_count size
  let gcr := get_corner_point o o.bbox.xmin (yMid o) o.bbox.zmin lofted_surface
  let gcl := get_corner_point o o.bbox.xmax (yMid o) o.bbox.zmin lofted_surface
  let uValue_right_corner := if gcr.2 < gcl.2 then (1/4 : ℚ) else gcr.2
  let uValue_left_corner := if gcr.2 < gcl.2 then (3/4 : ℚ) else gcl.2
  let dccw := if gcr.2 < gcl.2 then true else s.direction_counter_clockwise
  let scjR := set_control_joints o uValue_right_corner s.v_value lofted_surface (p ++ "_R") size
  let scjL := set_control_joints o uValue_left_corner s.v_value lofted_surface (p ++ "_L") size
  let scjU := set_control_joints o s.uValue_upper_corner s.v_value lofted_surface (p ++ "_U") size
  let scjD := set_control_joints o s.uValue_lower_corner s.v_value lofted_surface (p ++ "_D") size
  ( [ .group deformer_grp ] ++ ec1.1 ++ ec2.1
      ++ [ .parentTo curve_1 deformer_grp, .parentTo curve_2 deformer_grp ]
      ++ gec.1 ++ grs.1 ++ gls.1
      ++ [ .parentTo lofted_surface deformer_grp,
           .group follicle_grp, .parentTo follicle_grp deformer_grp,
           .group binding_joint_grp ]
      ++ rib
      ++ [ .setAttrB deformer_grp ("visibility") false,
           .setAttrB binding_joint_grp ("visibility") false ]
      ++ gcr.1 ++ gcl.1
      ++ scjR.1 ++ scjL.1 ++ scjU.1 ++ scjD.1,
    { s with
      pfx := p, size := size, curve_1 := curve_1, curve_2 := curve_2,
      lofted_surface := lofted_surface, deformer_grp := deformer_grp,
      follicle_grp := follicle_grp, binding_joint_grp := binding_joint_grp,
      uValue_right_corner := uValue_right_corner,
      uValue_left_corner := uValue_left_corner,
      direction_counter_clockwise := dccw,
      right_corner_joint := scjR.2, left_corner_joint := scjL.2,
      upper_corner_joint := scjU.2, lower_corner_joint := scjD.2 } )

/-- One iteration (index i, 1-based) of the segment_joints loop: computes
the four quadrant U values from the corner values, the winding flag and the
offset (segments_between_corner_points/(slider+1))*i, creates the four
segment control joints (their name is built by the f-string
,prefix_QQ_i which carries a stray leading comma in both source files) and
parents them under the control-joints group. -/
def segStep (o : Host) (s : RigState) (slider_value : Nat) (grp : String) (i : Nat) :
    List ApiCall × List JointRec :=
  let d := (s.segments_between_corner_points / ((slider_value : ℚ) + 1)) * (i : ℚ)
  let u_value_upper_right :=
    if s.direction_counter_clockwise then s.uValue_right_corner - d else s.uValue_right_corner + d
  let u_value_lower_right :=
    if s.direction_counter_clockwise then s.uValue_right_corner + d else s.uValue_right_corner - d
  let u_value_upper_left :=
    if s.direction_counter_clockwise then s.uValue_left_corner + d else s.uValue_left_corner - d
  let u_value_lower_left :=
    if s.direction_counter_clockwise then s.uValue_left_corner - d else s.uValue_left_corner + d
  let ru := set_control_joints o u_value_upper_right s.v_value s.lofted_surface
      ("," ++ s.pfx ++ "_RU_" ++ Nat.repr i) s.size
  let rd := set_control_joints o u_value_lower_right s.v_value s.lofted_surface
      ("," ++ s.pfx ++ "_RD_" ++ Nat.repr i) s.size
  let lu := set_control_joints o u_value_upper_left s.v_value s.lofted_surface
      ("," ++ s.pfx ++ "_LU_" ++ Nat.repr i) s.size
  let ld := set_control_joints o u_value_lower_left s.v_value s.lofted_surface
      ("," ++ s.pfx ++ "_LD_" ++ Nat.repr i) s.size
  (ru.1 ++ rd.1 ++ lu.1 ++ ld.1
    ++ [ .parentTo ru.2.name grp, .parentTo rd.2.name grp,
         .parentTo lu.2.name grp, .parentTo ld.2.name grp, .selectClear ],
   [ru.2, rd.2, lu.2, ld.2])

/-- The segment control joints created by a segment_joints run with a given
slider value (iterations i = 1 .. value, four joints each). -/
def seg_recs (o : Host) (s : RigState) (value : Nat) (grp : String) : List JointRec :=
  ((List.range value).map (fun j => (segStep o s value grp (j + 1)).2)).flatten

/-- segment_joints: the slider handler.  Writes the slider value into the
text field, deletes the control-joints group if it exists (which deletes the
segment joints under it), recreates the group and runs the loop for
i = 1 .. slider_value. -/
def segment_joints (cfg : ToolCfg) (o : Host) (value : Nat) (s : RigState) :
    List ApiCall × RigState :=
  let grp := s.pfx ++ cfg.ctrlGrpTail
  let tdel := match s.control_joint_grp with
    | some gjs => [ ApiCall.deleteNode gjs.1 ]
    | none => []
  (tdel ++ [ .group grp ] ++ iterN value (fun j => (segStep o s value grp (j + 1)).1),
   { s with inbetween_joints_text := Nat.repr value,
            control_joint_grp := some (grp, seg_recs o s value grp) })

/-- The loop of finish_rig over the selected control joints: each joint gets
a controller; the fold fails (none) if any joint name lacks _jnt.  Returns
the concatenated trace and the controller names in order. -/
def ccFold : List JointRec → String → ℚ → Option (List ApiCall × List String)
  | [], _, _ => some ([], [])
  | j :: js, g, size =>
    match create_controller j g size, ccFold js g size with
    | some tc, some rest => some (tc.1 ++ rest.1, tc.2 :: rest.2)
    | _, _ => none

/-- finish_rig: deletes the two curves, creates the control-joints group if
it does not yet exist, parents the four corner joints under it, creates the
controller group, skins the surface to all control joints, creates one
controller per control joint, wires the blend constraints and flips the
visibility of the binding-joints and control-joints groups. -/
def finish_rig (cfg : ToolCfg) (o : Host) (s : RigState) : Option (List ApiCall × RigState) :=
  let tdel := [ ApiCall.deleteNode s.curve_1, ApiCall.deleteNode s.curve_2 ]
  let gpre := match s.control_joint_grp with
    | some gjs => (([] : List ApiCall), gjs.1, gjs.2)
    | none => ([ ApiCall.group (s.pfx ++ cfg.ctrlGrpTail) ], s.pfx ++ cfg.ctrlGrpTail,
        ([] : List JointRec))
  let grp := gpre.2.1
  let segjs := gpre.2.2
  let controller_grp := s.pfx ++ "_controller_grp"
  let selJoints := [s.right_corner_joint, s.left_corner_joint,
      s.upper_corner_joint, s.lower_corner_joint] ++ segjs
  match ccFold selJoints controller_grp s.size with
  | none => none
  | some tcc =>
    some (tdel ++ gpre.1
        ++ [ .parentTo s.right_corner_joint.name grp, .parentTo s.left_corner_joint.name grp,
             .parentTo s.upper_corner_joint.name grp, .parentTo s.lower_corner_joint.name grp,
             .group controller_grp,
             .skinCluster (selJoints.map JointRec.name) s.lofted_surface
               (s.pfx ++ "_skinCluster") ]
        ++ tcc.1 ++ [ .selectClear ]
        ++ create_blend_for_segment_controller tcc.2 s.pfx
        ++ [ .setAttrB s.binding_joint_grp ("visibility") true,
             .setAttrB grp ("visibility") false ],
      { s with controller_grp := controller_grp,
               control_joint_grp := some (grp, segjs) })

/-- A full run of the tool: Confirm, one slider change to value n, Finish.
Returns the concatenation of the host-API invocation sequences the three
handlers issue, or none when finish_rig raises. -/
def runAll (cfg : ToolCfg) (o : Host) (n : Nat) (s : RigState) : Option (List ApiCall) :=
  let ui := user_input o s
  let sj := segment_joints cfg o n ui.2
  match finish_rig cfg o sj.2 with
  | none => none
  | some fr => some (ui.1 ++ sj.1 ++ fr.1)

/-- get_first_edge_loop: with an empty host selection only a message is
printed; otherwise the flattened selection is stored, the concatenated
component names are written to the text field and the selection is cleared. -/
def get_first_edge_loop (sel : List String) (s : RigState) : List ApiCall × RigState :=
  match sel with
  | [] => ([ .printMsg ("Please select an edge loop") ], s)
  | _ :: _ => ([ .selectClear ],
      { s with first_edge_Loop := sel, first_edge_loop_text := String.join sel })

/-- get_2nd_edge_loop: as get_first_edge_loop for the second edge loop. -/
def get_2nd_edge_loop (sel : List String) (s : RigState) : List ApiCall × RigState :=
  match sel with
  | [] => ([ .printMsg ("Please select an edge loop") ], s)
  | _ :: _ => ([ .selectClear ],
      { s with second_edge_Loop := sel, second_edge_loop_text := String.join sel })

/-- get_vertex_on_edge_loop: with an empty selection only a message is
printed; otherwise the first selected component is stored, written to the
text field and the selection is cleared. -/
def get_vertex_on_edge_loop (sel : List String) (s : RigState) : List ApiCall × RigState :=
  match sel with
  | [] => ([ .printMsg ("Please select the vertex") ], s)
  | v :: _ => ([ .selectClear ],
      { s with vertex_on_edge := v, vertex_text := v })

/-- The default JointRec standing for the Python initial attribute value 0. -/
def jointRec0 : JointRec := ⟨"", 0, 0, ⟨0, 0, 0⟩, ⟨0, 0, 0⟩⟩

/-- The dialog state right after the constructor ran: the attribute defaults
of the constructor plus the GUI defaults (prefix text Lip, in-between text 0,
no stored selections). -/
def initState : RigState :=
  { prefix_text := "Lip", first_edge_loop_text := "", second_edge_loop_text := "",
    vertex_text := "", inbetween_joints_text := "0",
    first_edge_Loop := [], second_edge_Loop := [], vertex_on_edge := "",
    pfx := "", v_value := 1/2,
    uValue_right_corner := 3/4, uValue_left_corner := 1/4,
    uValue_upper_corner := 0, uValue_lower_corner := 1/2,
    segments_between_corner_points := 1/4,
    direction_counter_clockwise := false, size := 0,
    curve_1 := "", curve_2 := "", lofted_surface := "", deformer_grp := "",
    follicle_grp := "", binding_joint_grp := "", controller_grp := "",
    control_joint_grp := none,
    right_corner_joint := jointRec0, left_corner_joint := jointRec0,
    upper_corner_joint := jointRec0, lower_corner_joint := jointRec0 }

/-- Replace one string by another, leave everything else unchanged. -/
def substOne (k k2 a : String) : String := if a = k then k2 else a

/-- Apply a renaming to every node-name position of a call.  Attribute
names, node types, mel text, selection component lists and numeric data are
not names of nodes the tool creates and are left untouched. -/
def ren (f : String → String) : ApiCall → ApiCall
  | .select ts => .select ts
  | .selectClear => .selectClear
  | .selectCurvePoint c q => .selectCurvePoint (f c) q
  | .selectCV c => .selectCV (f c)
  | .polyToCurve n => .polyToCurve (f n)
  | .rebuildCurve n => .rebuildCurve (f n)
  | .createNode t n => .createNode t (f n)
  | .createNodeP t n pn => .createNodeP t (f n) (f pn)
  | .connectAttr sn sa dn da => .connectAttr (f sn) sa (f dn) da
  | .setAttrQ n a v => .setAttrQ (f n) a v
  | .setAttrB n a v => .setAttrB (f n) a v
  | .setAttrV3 n a v => .setAttrV3 (f n) a v
  | .setAttrKL n a => .setAttrKL (f n) a
  | .loft c1 c2 n => .loft (f c1) (f c2) (f n)
  | .reverseSurface n => .reverseSurface (f n)
  | .deleteNode n => .deleteNode (f n)
  | .deleteCH n => .deleteCH (f n)
  | .joint n r => .joint (f n) r
  | .jointAt n r pv ov => .jointAt (f n) r pv ov
  | .group n => .group (f n)
  | .parentTo c pn => .parentTo (f c) (f pn)
  | .parentConstraint ss d sk mo w => .parentConstraint (ss.map f) (f d) sk mo w
  | .orientConstraint a b mo => .orientConstraint (f a) (f b) mo
  | .skinCluster js srf n => .skinCluster (js.map f) (f srf) (f n)
  | .circle n r => .circle (f n) r
  | .melEval m => .melEval m
  | .move a b c => .move a b c
  | .printMsg m => .printMsg m

/-! ## String and list toolkit -/

/-- Boolean suffix test on char lists. -/
def sfxB (t l : List Char) : Bool := isPre t.reverse l.reverse

theorem isPre_refl (l : List Char) : isPre l l = true := by
  induction l with
  | nil => rfl
  | cons a as ih => simp [isPre, ih]

theorem isPre_append (a r : List Char) : isPre a (a ++ r) = true := by
  induction a with
  | nil => rfl
  | cons x xs ih => simp [isPre, ih]

theorem isPre_length_le {a b : List Char} (h : isPre a b = true) : a.length ≤ b.length := by
  induction a generalizing b with
  | nil => simp
  | cons x xs ih =>
    cases b with
    | nil => simp [isPre] at h
    | cons y ys =>
      simp only [isPre, Bool.and_eq_true] at h
      simpa using ih h.2

theorem isPre_trans_le {a b m : List Char} (ha : isPre a m = true) (hb : isPre b m = true)
    (hl : a.length ≤ b.length) : isPre a b = true := by
  induction m generalizing a b with
  | nil =>
    cases a with
    | nil => rfl
    | cons x xs => simp [isPre] at ha
  | cons y ys ih =>
    cases a with
    | nil => rfl
    | cons x xs =>
      cases b with
      | nil => simp at hl
      | cons z zs =>
        simp only [isPre, Bool.and_eq_true, beq_iff_eq] at ha hb ⊢
        refine ⟨ha.1.trans hb.1.symm, ih ha.2 hb.2 (by simpa using hl)⟩

theorem sfxB_total {a b n : List Char} (ha : sfxB a n = true) (hb : sfxB b n = true)
    (hl : a.length ≤ b.length) : sfxB a b = true :=
  isPre_trans_le ha hb (by simpa using hl)

theorem sfxB_append (t x : List Char) : sfxB t (x ++ t) = true := by
  unfold sfxB
  rw [List.reverse_append]
  exact isPre_append _ _

/-- A string of the shape y ++ s2 admits s2 as a suffix, so a string of
which s2 is not a suffix differs from every y ++ s2. -/
theorem ne_append_right {c s2 : String} (h : ¬ sfxB s2.data c.data = true) (y : String) :
    c ≠ y ++ s2 := by
  intro he
  apply h
  rw [he, String.data_append]
  exact sfxB_append _ _

/-- Two appended strings with distinct suffix tails differ, whatever the
variable leading parts are: the shorter tail would otherwise be a suffix of
the longer one. -/
theorem append_ne_append {s1 s2 : String} (hl : s1.length ≤ s2.length)
    (h : ¬ sfxB s1.data s2.data = true) (x y : String) : x ++ s1 ≠ y ++ s2 := by
  intro he
  apply h
  have h1 : sfxB s1.data (x ++ s1).data = true := by
    rw [String.data_append]; exact sfxB_append _ _
  have h2 : sfxB s2.data (x ++ s1).data = true := by
    rw [he, String.data_append]; exact sfxB_append _ _
  exact sfxB_total h1 h2 hl

theorem ne_of_length_lt {a b : String} (h : a.length < b.length) : a ≠ b := by
  intro he
  rw [he] at h
  exact lt_irrefl _ h

theorem substOne_ne {k a : String} (h : a ≠ k) (k2 : String) : substOne k k2 a = a :=
  if_neg h

theorem substOne_eq (k k2 : String) : substOne k k2 k = k2 := if_pos rfl

/-- The auto-file control-joints group name has length prefix + 20. -/
theorem keyA_length (p : String) : (p ++ "_control_ joints_grp").length = p.length + 20 := by
  rw [String.length_append, show ("_control_ joints_grp" : String).length = 20 from rfl]

/-- substOne with the group-name key fixes any name built as a variable part
followed by a constant tail that is not a suffix of the 20-character group
tail. -/
theorem subst_fix_tail {t : String} (hl : t.length ≤ 20)
    (h : ¬ sfxB t.data ("_control_ joints_grp").data = true) (p k2 x : String) :
    substOne (p ++ "_control_ joints_grp") k2 (x ++ t) = x ++ t :=
  substOne_ne (append_ne_append
    (by rw [show ("_control_ joints_grp" : String).length = 20 from rfl]; exact hl) h x p) k2

/-- substOne with the group-name key fixes any constant name of which the
group tail is not a suffix. -/
theorem subst_fix_const {c : String}
    (h : ¬ sfxB ("_control_ joints_grp").data c.data = true) (p k2 : String) :
    substOne (p ++ "_control_ joints_grp") k2 c = c :=
  substOne_ne (ne_append_right h p) k2

/-- substOne with the group-name key fixes any name shorter than the key. -/
theorem subst_fix_short {p a : String} (h : a.length < p.length + 20) (k2 : String) :
    substOne (p ++ "_control_ joints_grp") k2 a = a :=
  substOne_ne (ne_of_length_lt (by rw [keyA_length]; exact h)) k2

/-! ### findSub -/

theorem findSubL_isPre {pat l : List Char} {i : Nat} (h : findSubL pat l = some i) :
    isPre pat (l.drop i) = true := by
  induction l generalizing i with
  | nil =>
    unfold findSubL at h
    split at h
    next hemp =>
      cases h
      rw [List.isEmpty_iff] at hemp
      subst hemp
      rfl
    next => cases h
  | cons c cs ih =>
    unfold findSubL at h
    split at h
    next hp =>
      cases h
      exact hp
    next hp =>
      cases hmap : findSubL pat cs with
      | none => rw [hmap] at h; cases h
      | some i0 =>
        rw [hmap] at h
        simp only [Option.map_some'] at h
        cases h
        exact ih hmap

theorem findSubL_min {pat l : List Char} {i : Nat} (h : findSubL pat l = some i) :
    ∀ j, j < i → ¬ isPre pat (l.drop j) = true := by
  induction l generalizing i with
  | nil =>
    unfold findSubL at h
    split at h
    next =>
      cases h
      omega
    next => cases h
  | cons c cs ih =>
    unfold findSubL at h
    split at h
    next hp =>
      cases h
      omega
    next hp =>
      cases hmap : findSubL pat cs with
      | none => rw [hmap] at h; cases h
      | some i0 =>
        rw [hmap] at h
        simp only [Option.map_some'] at h
        cases h
        intro j hj
        cases j with
        | zero => exact hp
        | succ j0 => exact ih hmap j0 (by omega)

theorem findSubL_le {pat l : List Char} {j : Nat} (h : isPre pat (l.drop j) = true) :
    ∃ i, i ≤ j ∧ findSubL pat l = some i := by
  induction l generalizing j with
  | nil =>
    rw [List.drop_nil] at h
    cases pat with
    | nil => exact ⟨0, Nat.zero_le _, rfl⟩
    | cons x xs => simp [isPre] at h
  | cons c cs ih =>
    by_cases hp : isPre pat (c :: cs) = true
    · exact ⟨0, Nat.zero_le _, by unfold findSubL; rw [if_pos hp]⟩
    · cases j with
      | zero => exact absurd h hp
      | succ j0 =>
        obtain ⟨i0, hi0, heq⟩ := ih (j := j0) (by simpa using h)
        refine ⟨i0 + 1, by omega, ?_⟩
        unfold findSubL
        rw [if_neg hp, heq]
        rfl

/-- The pattern _jnt occurs in x ++ _ctrl_jnt at offset x.length + 5, so its
first occurrence is at an index bounded by x.length + 5. -/
theorem findSub_ctrl_jnt (x : String) :
    ∃ i, i ≤ x.length + 5 ∧ findSub ("_jnt") (x ++ "_ctrl_jnt") = some i := by
  apply findSubL_le
  rw [String.data_append]
  have hdrop : (x.data ++ ("_ctrl_jnt" : String).data).drop (x.data.length + 5)
      = ("_ctrl_jnt" : String).data.drop 5 := by
    rw [← List.drop_drop, List.drop_left]
  rw [show (String.length x) = x.data.length from rfl, hdrop]
  decide

/-! ### glob -/

theorem globL_star {ps s : List Char} :
    globL ('*' :: ps) s = true ↔ ∃ k, globL ps (s.drop k) = true := by
  rw [show globL ('*' :: ps) s
      = (List.range (s.length + 1)).any (fun k => globL ps (s.drop k)) from rfl]
  rw [List.any_eq_true]
  constructor
  · rintro ⟨k, _, hk⟩
    exact ⟨k, hk⟩
  · rintro ⟨k, hk⟩
    by_cases hle : k ≤ s.length
    · exact ⟨k, List.mem_range.mpr (by omega), hk⟩
    · refine ⟨s.length, List.mem_range.mpr (by omega), ?_⟩
      rw [List.drop_length]
      rwa [List.drop_eq_nil_of_le (by omega)] at hk

theorem globL_nostar {lit : List Char} (h : '*' ∉ lit) :
    ∀ s, globL lit s = true ↔ s = lit := by
  induction lit with
  | nil =>
    intro s
    cases s <;> simp [globL]
  | cons p ps ih =>
    have hp : ¬ p = '*' := fun he => h (he ▸ List.mem_cons_self _ _)
    have h2 : '*' ∉ ps := fun hm => h (List.mem_cons_of_mem _ hm)
    intro s
    cases s with
    | nil =>
      rw [show globL (p :: ps) [] = false from by
        conv_lhs => unfold globL
        rw [if_neg hp]]
      simp
    | cons c cs =>
      rw [show globL (p :: ps) (c :: cs) = (p == c && globL ps cs) from by
        conv_lhs => unfold globL
        rw [if_neg hp]]
      rw [Bool.and_eq_true, beq_iff_eq, ih h2 cs]
      constructor
      · rintro ⟨he, hrest⟩
        rw [he, hrest]
      · intro he
        cases he
        exact ⟨rfl, rfl⟩

/-! ### Loop iteration -/

theorem iterN_succ {α : Type} (n : Nat) (f : Nat → List α) :
    iterN (n + 1) f = iterN n f ++ f n := by
  unfold iterN
  rw [List.range_succ, List.map_append, List.flatten_append]
  simp

theorem countP_iterN_const {α : Type} {q : α → Bool} {c : Nat} {n : Nat} {f : Nat → List α}
    (h : ∀ i, i < n → (f i).countP q = c) : (iterN n f).countP q = n * c := by
  induction n with
  | zero => simp [iterN]
  | succ n ih =>
    rw [iterN_succ, List.countP_append, ih (fun i hi => h i (by omega)),
      h n (by omega)]
    ring

theorem filterMap_iterN_nil {α β : Type} {g : α → Option β} {n : Nat}
    {f : Nat → List α} (h : ∀ i, i < n → (f i).filterMap g = []) :
    (iterN n f).filterMap g = [] := by
  induction n with
  | zero => simp [iterN]
  | succ n ih =>
    rw [iterN_succ, List.filterMap_append, ih (fun i hi => h i (by omega)),
      h n (by omega)]
    rfl

theorem map_iterN_id {α : Type} {g : α → α} {n : Nat} {f : Nat → List α}
    (h : ∀ i, i < n → (f i).map g = f i) : (iterN n f).map g = iterN n f := by
  induction n with
  | zero => simp [iterN]
  | succ n ih =>
    rw [iterN_succ, List.map_append, ih (fun i hi => h i (by omega)), h n (by omega)]

/-- Decimal representations of slider values (at most 10) have at most two
characters. -/
theorem repr_len_le {i : Nat} (h : i ≤ 10) : (Nat.repr i).length ≤ 2 := by
  interval_cases i <;> decide

theorem iterN_congr {α : Type} {n : Nat} {f g : Nat → List α}
    (h : ∀ i, i < n → f i = g i) : iterN n f = iterN n g := by
  induction n with
  | zero => rfl
  | succ n ih =>
    rw [iterN_succ, iterN_succ, ih (fun i hi => h i (by omega)), h n (by omega)]

theorem length_iterN_const {α : Type} {c : Nat} {n : Nat} {f : Nat → List α}
    (h : ∀ i, i < n → (f i).length = c) : (iterN n f).length = n * c := by
  induction n with
  | zero => simp [iterN]
  | succ n ih =>
    rw [iterN_succ, List.length_append, ih (fun i hi => h i (by omega)), h n (by omega)]
    ring

/-! ## Trace observation functions -/

/-- Recognizes a reverseSurface invocation. -/
def isReverseSurfaceCall : ApiCall → Bool
  | .reverseSurface _ => true
  | _ => false

/-- Recognizes the MoveCurveSeam mel invocation of move_Seam. -/
def isSeamMel : ApiCall → Bool
  | .melEval m => m == "MoveCurveSeam;"
  | _ => false

/-- Recognizes a loft invocation. -/
def isLoftCall : ApiCall → Bool
  | .loft _ _ _ => true
  | _ => false

/-- Recognizes a plain pm.joint invocation (the binding joints). -/
def isJointCall : ApiCall → Bool
  | .joint _ _ => true
  | _ => false

/-- Recognizes a positioned pm.joint invocation (the control joints placed by
set_control_joints). -/
def isJointAtCall : ApiCall → Bool
  | .jointAt _ _ _ _ => true
  | _ => false

/-- Recognizes a parentConstraint invocation. -/
def isPCCall : ApiCall → Bool
  | .parentConstraint _ _ _ _ _ => true
  | _ => false

/-- Recognizes an orientConstraint invocation. -/
def isOCCall : ApiCall → Bool
  | .orientConstraint _ _ _ => true
  | _ => false

/-- Recognizes a delete invocation. -/
def isDeleteCall : ApiCall → Bool
  | .deleteNode _ => true
  | _ => false

/-- Recognizes a group creation. -/
def isGroupCall : ApiCall → Bool
  | .group _ => true
  | _ => false

/-- Recognizes a circle (controller curve) creation. -/
def isCircleCall : ApiCall → Bool
  | .circle _ _ => true
  | _ => false

/-- Recognizes a parent constraint whose target is a controller buffer group
(the constraints created by create_blend). -/
def isBufferConstraint : ApiCall → Bool
  | .parentConstraint _ dst _ _ _ => sfxB ("_buffer_grp").data dst.data
  | _ => false

/-- Selects the name given to a polyToCurve invocation. -/
def polyToCurveName? : ApiCall → Option String
  | .polyToCurve n => some n
  | _ => none

/-- Selects the input curves and surface name of a loft invocation. -/
def loftCall? : ApiCall → Option (String × String × String)
  | .loft a b n => some (a, b, n)
  | _ => none

/-- Selects the curve and parameter of a curve-point selection (the seam
point move_Seam selects). -/
def seamSelect? : ApiCall → Option (String × ℚ)
  | .selectCurvePoint crv q => some (crv, q)
  | _ => none

/-- Selects a parameterU value set on the temporary corner follicle shape:
the U position at which set_control_joints places a control joint. -/
def cornerU? : ApiCall → Option ℚ
  | .setAttrQ n a v =>
    if n = "follicleCornerShape" ∧ a = "parameterU" then some v else none
  | _ => none

/-- Selects a parameterV value set on the temporary corner follicle shape. -/
def cornerV? : ApiCall → Option ℚ
  | .setAttrQ n a v =>
    if n = "follicleCornerShape" ∧ a = "parameterV" then some v else none
  | _ => none

/-- Number of segment control joints currently in the scene (the joints
parented under the control-joints group). -/
def ctrlJointCount (s : RigState) : Nat :=
  match s.control_joint_grp with
  | none => 0
  | some gjs => gjs.2.length

/-! ## Claim theorems -/

/-- Claim C2: get_lofted_surface applies reverseSurface to the lofted surface
if and only if the dot product of the unit z vector (0,0,1) with the sampled
surface normal is strictly negative, and when the dot product is zero or
positive no reverseSurface call is issued at all. -/
theorem C2_reverse_iff_dot_neg (o : Host) (c1 c2 vtx p : String) :
    ((ApiCall.reverseSurface (p ++ "_001_NURBSPlane")) ∈ (get_lofted_surface o c1 c2 vtx p).1
      ↔ dot3 ⟨0, 0, 1⟩ o.surfNormal < 0)
    ∧ (get_lofted_surface o c1 c2 vtx p).1.countP isReverseSurfaceCall
        = (if dot3 ⟨0, 0, 1⟩ o.surfNormal < 0 then 1 else 0) := by
  by_cases hd : dot3 ⟨0, 0, 1⟩ o.surfNormal < 0 <;>
    by_cases hs : o.spansU < o.spansV <;>
      simp [get_lofted_surface, move_Seam, hd, hs, isReverseSurfaceCall,
        List.countP_append, List.countP_cons]

/-- Claim C1: for u_count at least 1, create_surface_ribbons is the loop that
for each i below u_count creates one follicle whose parameterU is i/u_count
and parameterV is 1/2 together with one binding joint, wired by exactly one
parent constraint that skips the x, y, z rotate axes plus one orient
constraint from the follicle to the joint; the U values start at 0, advance
by 1/u_count and stay strictly below 1; in total u_count follicle shapes,
u_count parent constraints and u_count orient constraints are created. -/
theorem C1_create_surface_ribbons (ls p fg bg : String) (n : Nat) (size : ℚ)
    (h : 1 ≤ n) :
    (create_surface_ribbons ls p fg bg n size
      = iterN n (fun i =>
          [ .createNode ("transform") (p ++ "_rbn_" ++ Nat.repr (i + 1) ++ "_fol"),
            .createNodeP ("follicle") (p ++ "_rbn_" ++ Nat.repr (i + 1) ++ "_fol" ++ "Shape")
              (p ++ "_rbn_" ++ Nat.repr (i + 1) ++ "_fol"),
            .connectAttr (p ++ "_rbn_" ++ Nat.repr (i + 1) ++ "_fol" ++ "Shape") ("outRotate")
              (p ++ "_rbn_" ++ Nat.repr (i + 1) ++ "_fol") ("rotate"),
            .connectAttr (p ++ "_rbn_" ++ Nat.repr (i + 1) ++ "_fol" ++ "Shape") ("outTranslate")
              (p ++ "_rbn_" ++ Nat.repr (i + 1) ++ "_fol") ("translate"),
            .connectAttr ls ("worldMatrix") (p ++ "_rbn_" ++ Nat.repr (i + 1) ++ "_fol")
              ("inputWorldMatrix"),
            .connectAttr ls ("local") (p ++ "_rbn_" ++ Nat.repr (i + 1) ++ "_fol")
              ("inputSurface"),
            .setAttrQ (p ++ "_rbn_" ++ Nat.repr (i + 1) ++ "_fol" ++ "Shape") ("parameterU")
              ((i : ℚ) / (n : ℚ)),
            .setAttrQ (p ++ "_rbn_" ++ Nat.repr (i + 1) ++ "_fol" ++ "Shape") ("parameterV")
              (1/2),
            .joint (p ++ "_" ++ Nat.repr (i + 1) ++ "_bnd_jnt") (size / 3),
            .parentTo (p ++ "_" ++ Nat.repr (i + 1) ++ "_bnd_jnt") bg,
            .parentTo (p ++ "_rbn_" ++ Nat.repr (i + 1) ++ "_fol") fg,
            .parentConstraint [p ++ "_rbn_" ++ Nat.repr (i + 1) ++ "_fol"]
              (p ++ "_" ++ Nat.repr (i + 1) ++ "_bnd_jnt") ["x", "y", "z"] false 1,
            .orientConstraint (p ++ "_rbn_" ++ Nat.repr (i + 1) ++ "_fol")
              (p ++ "_" ++ Nat.repr (i + 1) ++ "_bnd_jnt") false,
            .selectClear ]))
    ∧ (∀ i : Nat, i < n → (i : ℚ) / (n : ℚ) < 1)
    ∧ ((0 : ℚ) / (n : ℚ) = 0)
    ∧ (∀ i : Nat, ((i : ℚ) + 1) / (n : ℚ) - (i : ℚ) / (n : ℚ) = 1 / (n : ℚ))
    ∧ (create_surface_ribbons ls p fg bg n size).countP
        (fun c => match c with | .createNodeP t _ _ => t == "follicle" | _ => false) = n
    ∧ (create_surface_ribbons ls p fg bg n size).countP isPCCall = n
    ∧ (create_surface_ribbons ls p fg bg n size).countP isOCCall = n := by
  have hn0 : (0 : ℚ) < (n : ℚ) := by
    have : (0 : Nat) < n := h
    exact_mod_cast this
  refine ⟨?_, ?_, ?_, ?_, ?_, ?_, ?_⟩
  · unfold create_surface_ribbons
    apply iterN_congr
    intro i hi
    unfold ribbonStep
    have harith : 0 + 1 / (n : ℚ) * (i : ℚ) = (i : ℚ) / (n : ℚ) := by
      rw [zero_add, one_div, inv_mul_eq_div]
    rw [harith]
  · intro i hi
    rw [div_lt_one hn0]
    exact_mod_cast hi
  · simp
  · intro i
    rw [div_sub_div_same]
    norm_num
  · unfold create_surface_ribbons
    exact (countP_iterN_const (c := 1) (fun i _ => by
      simp [ribbonStep, List.countP_cons])).trans (Nat.mul_one n)
  · unfold create_surface_ribbons
    exact (countP_iterN_const (c := 1) (fun i _ => by
      simp [ribbonStep, isPCCall, List.countP_cons])).trans (Nat.mul_one n)
  · unfold create_surface_ribbons
    exact (countP_iterN_const (c := 1) (fun i _ => by
      simp [ribbonStep, isOCCall, List.countP_cons])).trans (Nat.mul_one n)

/-- Witness for C1 at u_count = 2. -/
theorem C1_witness :
    1 ≤ 2
    ∧ ((create_surface_ribbons ("srf") ("Lip") ("fg") ("bg") 2 3
      = iterN 2 (fun i =>
          [ .createNode ("transform") ("Lip" ++ "_rbn_" ++ Nat.repr (i + 1) ++ "_fol"),
            .createNodeP ("follicle") ("Lip" ++ "_rbn_" ++ Nat.repr (i + 1) ++ "_fol" ++ "Shape")
              ("Lip" ++ "_rbn_" ++ Nat.repr (i + 1) ++ "_fol"),
            .connectAttr ("Lip" ++ "_rbn_" ++ Nat.repr (i + 1) ++ "_fol" ++ "Shape") ("outRotate")
              ("Lip" ++ "_rbn_" ++ Nat.repr (i + 1) ++ "_fol") ("rotate"),
            .connectAttr ("Lip" ++ "_rbn_" ++ Nat.repr (i + 1) ++ "_fol" ++ "Shape") ("outTranslate")
              ("Lip" ++ "_rbn_" ++ Nat.repr (i + 1) ++ "_fol") ("translate"),
            .connectAttr ("srf") ("worldMatrix") ("Lip" ++ "_rbn_" ++ Nat.repr (i + 1) ++ "_fol")
              ("inputWorldMatrix"),
            .connectAttr ("srf") ("local") ("Lip" ++ "_rbn_" ++ Nat.repr (i + 1) ++ "_fol")
              ("inputSurface"),
            .setAttrQ ("Lip" ++ "_rbn_" ++ Nat.repr (i + 1) ++ "_fol" ++ "Shape") ("parameterU")
              ((i : ℚ) / (2 : ℚ)),
            .setAttrQ ("Lip" ++ "_rbn_" ++ Nat.repr (i + 1) ++ "_fol" ++ "Shape") ("parameterV")
              (1/2),
            .joint ("Lip" ++ "_" ++ Nat.repr (i + 1) ++ "_bnd_jnt") (3 / 3),
            .parentTo ("Lip" ++ "_" ++ Nat.repr (i + 1) ++ "_bnd_jnt") ("bg"),
            .parentTo ("Lip" ++ "_rbn_" ++ Nat.repr (i + 1) ++ "_fol") ("fg"),
            .parentConstraint [("Lip" : String) ++ "_rbn_" ++ Nat.repr (i + 1) ++ "_fol"]
              ("Lip" ++ "_" ++ Nat.repr (i + 1) ++ "_bnd_jnt") ["x", "y", "z"] false 1,
            .orientConstraint ("Lip" ++ "_rbn_" ++ Nat.repr (i + 1) ++ "_fol")
              ("Lip" ++ "_" ++ Nat.repr (i + 1) ++ "_bnd_jnt") false,
            .selectClear ]))
    ∧ (∀ i : Nat, i < 2 → (i : ℚ) / (2 : ℚ) < 1)
    ∧ ((0 : ℚ) / (2 : ℚ) = 0)
    ∧ (∀ i : Nat, ((i : ℚ) + 1) / (2 : ℚ) - (i : ℚ) / (2 : ℚ) = 1 / (2 : ℚ))
    ∧ (create_surface_ribbons ("srf") ("Lip") ("fg") ("bg") 2 3).countP
        (fun c => match c with | .createNodeP t _ _ => t == "follicle" | _ => false) = 2
    ∧ (create_surface_ribbons ("srf") ("Lip") ("fg") ("bg") 2 3).countP isPCCall = 2
    ∧ (create_surface_ribbons ("srf") ("Lip") ("fg") ("bg") 2 3).countP isOCCall = 2) :=
  ⟨by decide, C1_create_surface_ribbons ("srf") ("Lip") ("fg") ("bg") 2 3 (by decide)⟩

/-- Claim C3: in user_input, the right corner U value is the closest-point
lookup at the bounding-box minimum-x corner at the vertical midpoint, the
left corner U value the lookup at maximum x; exactly when the right value is
strictly below the left one the winding flag is set and the two values get
overwritten to 1/4 and 3/4, otherwise the looked-up values are kept and the
flag remains false (assuming its initial false value). -/
theorem C3_corner_direction (o : Host) (s : RigState)
    (hccw : s.direction_counter_clockwise = false) :
    ((user_input o s).2.direction_counter_clockwise = true
      ↔ o.closestU o.bbox.xmin (yMid o) o.bbox.zmin
          < o.closestU o.bbox.xmax (yMid o) o.bbox.zmin)
    ∧ ((user_input o s).2.uValue_right_corner, (user_input o s).2.uValue_left_corner)
      = (if o.closestU o.bbox.xmin (yMid o) o.bbox.zmin
            < o.closestU o.bbox.xmax (yMid o) o.bbox.zmin
         then ((1/4 : ℚ), (3/4 : ℚ))
         else (o.closestU o.bbox.xmin (yMid o) o.bbox.zmin,
               o.closestU o.bbox.xmax (yMid o) o.bbox.zmin))
    ∧ (get_corner_point o o.bbox.xmin (yMid o) o.bbox.zmin s.lofted_surface).2
      = o.closestU o.bbox.xmin (yMid o) o.bbox.zmin
    ∧ (get_corner_point o o.bbox.xmax (yMid o) o.bbox.zmin s.lofted_surface).2
      = o.closestU o.bbox.xmax (yMid o) o.bbox.zmin := by
  by_cases hlt : o.closestU o.bbox.xmin (yMid o) o.bbox.zmin
      < o.closestU o.bbox.xmax (yMid o) o.bbox.zmin <;>
    simp [user_input, get_corner_point, hccw, hlt]

/-- Witness for C3 with a concrete oracle in which the right lookup is
below the left one. -/
theorem C3_witness :
    (initState.direction_counter_clockwise = false)
    ∧ (((user_input
        ⟨fun _ => ⟨0, 0, 0⟩, fun _ _ => 0, fun _ => ⟨0, 0, 0⟩, fun _ _ => 3, fun _ => 2,
         1, 4, ⟨0, 0, 1⟩, ⟨-1, -1, 0, 1, 1, 0⟩, fun x _ _ => if x < 0 then (1/10 : ℚ) else (9/10),
         fun u v => ⟨u, v, 0⟩, fun _ _ => ⟨0, 0, 0⟩⟩ initState).2.direction_counter_clockwise = true
      ↔ (1/10 : ℚ) < (9/10 : ℚ))) := by
  refine ⟨rfl, ?_⟩
  have h := (C3_corner_direction
    ⟨fun _ => ⟨0, 0, 0⟩, fun _ _ => 0, fun _ => ⟨0, 0, 0⟩, fun _ _ => 3, fun _ => 2,
     1, 4, ⟨0, 0, 1⟩, ⟨-1, -1, 0, 1, 1, 0⟩, fun x _ _ => if x < 0 then (1/10 : ℚ) else (9/10),
     fun u v => ⟨u, v, 0⟩, fun _ _ => ⟨0, 0, 0⟩⟩ initState rfl).1
  simpa using h

/-- Claim C10: each pick handler leaves the state untouched and only prints
its message when the host selection is empty, and otherwise stores the
selection (its first component, for the vertex handler), writes the name
into its text field and clears the host selection. -/
theorem C10_pick_handlers (sel : List String) (s : RigState) :
    (sel = [] →
      get_first_edge_loop sel s = ([ .printMsg ("Please select an edge loop") ], s)
      ∧ get_2nd_edge_loop sel s = ([ .printMsg ("Please select an edge loop") ], s)
      ∧ get_vertex_on_edge_loop sel s = ([ .printMsg ("Please select the vertex") ], s))
    ∧ (∀ v rest, sel = v :: rest →
      ((get_first_edge_loop sel s).2.first_edge_Loop = sel
        ∧ (get_first_edge_loop sel s).2.first_edge_loop_text = String.join sel
        ∧ (get_first_edge_loop sel s).1 = [ .selectClear ])
      ∧ ((get_2nd_edge_loop sel s).2.second_edge_Loop = sel
        ∧ (get_2nd_edge_loop sel s).2.second_edge_loop_text = String.join sel
        ∧ (get_2nd_edge_loop sel s).1 = [ .selectClear ])
      ∧ ((get_vertex_on_edge_loop sel s).2.vertex_on_edge = v
        ∧ (get_vertex_on_edge_loop sel s).2.vertex_text = v
        ∧ (get_vertex_on_edge_loop sel s).1 = [ .selectClear ])) := by
  constructor
  · rintro rfl
    exact ⟨rfl, rfl, rfl⟩
  · rintro v rest rfl
    exact ⟨⟨rfl, rfl, rfl⟩, ⟨rfl, rfl, rfl⟩, ⟨rfl, rfl, rfl⟩⟩

/-- Witness for C10: the empty-selection branch at the initial state and the
non-empty branch on a one-component selection. -/
theorem C10_witness :
    get_first_edge_loop [] initState = ([ .printMsg ("Please select an edge loop") ], initState)
    ∧ (get_vertex_on_edge_loop ["geo.vtx[3]"] initState).2.vertex_on_edge = "geo.vtx[3]" :=
  ⟨((C10_pick_handlers [] initState).1 rfl).1,
   (((C10_pick_handlers ["geo.vtx[3]"] initState).2 ("geo.vtx[3]") [] rfl).2.2).1⟩

theorem segStep_recs_length (o : Host) (s : RigState) (n : Nat) (grp : String) (i : Nat) :
    ((segStep o s n grp i).2).length = 4 := by
  simp [segStep]

theorem segStep_trace_countP_jointAt (o : Host) (s : RigState) (n : Nat) (grp : String)
    (i : Nat) : ((segStep o s n grp i).1).countP isJointAtCall = 4 := by
  simp [segStep, set_control_joints, isJointAtCall, List.countP_append, List.countP_cons]

theorem segStep_trace_countP_group (o : Host) (s : RigState) (n : Nat) (grp : String)
    (i : Nat) : ((segStep o s n grp i).1).countP isGroupCall = 0 := by
  simp [segStep, set_control_joints, isGroupCall, List.countP_append, List.countP_cons]

/-- Claim C9: a segment_joints run leaves exactly 4n segment control joints
in the scene whatever the scene held before, its trace opens with the
deletion of the previous group (exactly when one exists) followed by the
creation of the fresh group, it issues exactly 4n control-joint creations
and one group creation, and running it twice in a row with the same slider
value leaves the same state (hence the same scene contents) as running it
once. -/
theorem C9_segment_joints_idempotent (cfg : ToolCfg) (o : Host) (n : Nat) (s : RigState) :
    ctrlJointCount (segment_joints cfg o n s).2 = 4 * n
    ∧ (segment_joints cfg o n (segment_joints cfg o n s).2).2 = (segment_joints cfg o n s).2
    ∧ (∃ rest, (segment_joints cfg o n s).1
        = (match s.control_joint_grp with
           | some gjs => [ApiCall.deleteNode gjs.1]
           | none => []) ++ ApiCall.group (s.pfx ++ cfg.ctrlGrpTail) :: rest)
    ∧ (segment_joints cfg o n s).1.countP isJointAtCall = 4 * n
    ∧ (segment_joints cfg o n s).1.countP isGroupCall = 1 := by
  have h4 : (iterN n (fun j =>
      (segStep o s n (s.pfx ++ cfg.ctrlGrpTail) (j + 1)).1)).countP isJointAtCall = n * 4 :=
    countP_iterN_const (fun i _ => segStep_trace_countP_jointAt o s n _ _)
  have hg : (iterN n (fun j =>
      (segStep o s n (s.pfx ++ cfg.ctrlGrpTail) (j + 1)).1)).countP isGroupCall = n * 0 :=
    countP_iterN_const (fun i _ => segStep_trace_countP_group o s n _ _)
  refine ⟨?_, ?_, ?_, ?_, ?_⟩
  · have hlen : (seg_recs o s n (s.pfx ++ cfg.ctrlGrpTail)).length = n * 4 :=
      length_iterN_const (fun i _ => segStep_recs_length o s n _ _)
    simp only [segment_joints, ctrlJointCount]
    omega
  · rfl
  · refine ⟨iterN n (fun j => (segStep o s n (s.pfx ++ cfg.ctrlGrpTail) (j + 1)).1), ?_⟩
    cases hc : s.control_joint_grp <;> simp [segment_joints, hc]
  · cases hc : s.control_joint_grp <;>
      simp [segment_joints, hc, List.countP_append, List.countP_cons,
        isJointAtCall, h4] <;> omega
  · cases hc : s.control_joint_grp <;>
      simp [segment_joints, hc, List.countP_append, List.countP_cons,
        isGroupCall, isDeleteCall, hg]

/-- Claim C8: any joint whose name matches the ls pattern *_ctrl_jnt (the
pattern finish_rig collects before calling create_controller) contains _jnt,
so create_controller never fails on it, its first-occurrence index is
well-defined and minimal, and the controller is named by truncating the
joint name at that first occurrence. -/
theorem C8_controller_name (j : JointRec) (grp : String) (size : ℚ)
    (h : globMatch ("*_ctrl_jnt") j.name = true) :
    ∃ i, findSub ("_jnt") j.name = some i
      ∧ isPre ("_jnt" : String).data (j.name.data.drop i) = true
      ∧ (∀ k, k < i → ¬ isPre ("_jnt" : String).data (j.name.data.drop k) = true)
      ∧ ∃ tr, create_controller j grp size = some (tr, String.mk (j.name.data.take i)) := by
  unfold globMatch at h
  rw [show ("*_ctrl_jnt" : String).data = '*' :: ("_ctrl_jnt" : String).data from rfl] at h
  obtain ⟨k, hk⟩ := globL_star.mp h
  have hlit : j.name.data.drop k = ("_ctrl_jnt" : String).data :=
    (globL_nostar (by decide) _).mp hk
  have hocc : isPre ("_jnt" : String).data (j.name.data.drop (k + 5)) = true := by
    rw [← List.drop_drop, hlit]
    decide
  obtain ⟨i, _, heq⟩ := findSubL_le hocc
  refine ⟨i, heq, findSubL_isPre heq, findSubL_min heq, ?_⟩
  unfold create_controller findSub
  rw [heq]
  exact ⟨_, rfl⟩

/-- A sample control joint for the C8 witness. -/
def jw : JointRec := ⟨"Lip_R_ctrl_jnt", 0, 0, ⟨0, 0, 0⟩, ⟨0, 0, 0⟩⟩

/-- Witness for C8 on the right corner joint name. -/
theorem C8_witness :
    globMatch ("*_ctrl_jnt") jw.name = true
    ∧ ∃ i, findSub ("_jnt") jw.name = some i
      ∧ isPre ("_jnt" : String).data (jw.name.data.drop i) = true
      ∧ (∀ k, k < i → ¬ isPre ("_jnt" : String).data (jw.name.data.drop k) = true)
      ∧ ∃ tr, create_controller jw ("cg") 1 = some (tr, String.mk (jw.name.data.take i)) :=
  ⟨by decide, C8_controller_name jw ("cg") 1 (by decide)⟩

/-! ## Piece lemmas for the user_input trace -/

theorem ribbon_folShape_ne (p iS : String) :
    p ++ "_rbn_" ++ iS ++ "_fol" ++ "Shape" ≠ "follicleCornerShape" := by
  have he : p ++ "_rbn_" ++ iS ++ "_fol" ++ "Shape"
      = p ++ "_rbn_" ++ iS ++ "_folShape" := by
    rw [String.append_assoc, show ("_fol" ++ "Shape" : String) = "_folShape" from by decide]
  rw [he]
  exact (ne_append_right (by decide) _).symm

theorem cornerUs_ribbonStep (ls p fg bg : String) (n : Nat) (size : ℚ) (i : Nat) :
    (ribbonStep ls p fg bg n size i).filterMap cornerU? = [] := by
  have hne := ribbon_folShape_ne p (Nat.repr (i + 1))
  simp [cornerU?, ribbonStep]
  exact hne

theorem cornerVs_ribbonStep (ls p fg bg : String) (n : Nat) (size : ℚ) (i : Nat) :
    (ribbonStep ls p fg bg n size i).filterMap cornerV? = [] := by
  have hne := ribbon_folShape_ne p (Nat.repr (i + 1))
  simp [cornerV?, ribbonStep]
  exact hne

theorem cornerUs_crs (ls p fg bg : String) (n : Nat) (size : ℚ) :
    (create_surface_ribbons ls p fg bg n size).filterMap cornerU? = [] :=
  filterMap_iterN_nil (fun i _ => cornerUs_ribbonStep ls p fg bg n size i)

theorem cornerVs_crs (ls p fg bg : String) (n : Nat) (size : ℚ) :
    (create_surface_ribbons ls p fg bg n size).filterMap cornerV? = [] :=
  filterMap_iterN_nil (fun i _ => cornerVs_ribbonStep ls p fg bg n size i)

theorem polyToCurveNames_crs (ls p fg bg : String) (n : Nat) (size : ℚ) :
    (create_surface_ribbons ls p fg bg n size).filterMap polyToCurveName? = [] :=
  filterMap_iterN_nil (fun i _ => by simp [polyToCurveName?, ribbonStep])

theorem loftCalls_crs (ls p fg bg : String) (n : Nat) (size : ℚ) :
    (create_surface_ribbons ls p fg bg n size).filterMap loftCall? = [] :=
  filterMap_iterN_nil (fun i _ => by simp [loftCall?, ribbonStep])

theorem seamSelects_crs (ls p fg bg : String) (n : Nat) (size : ℚ) :
    (create_surface_ribbons ls p fg bg n size).filterMap seamSelect? = [] :=
  filterMap_iterN_nil (fun i _ => by simp [seamSelect?, ribbonStep])

theorem countP_joint_crs (ls p fg bg : String) (n : Nat) (size : ℚ) :
    (create_surface_ribbons ls p fg bg n size).countP isJointCall = n :=
  (countP_iterN_const (c := 1) (fun i _ => by
    simp [ribbonStep, isJointCall, List.countP_cons])).trans (Nat.mul_one n)

theorem countP_jointAt_crs (ls p fg bg : String) (n : Nat) (size : ℚ) :
    (create_surface_ribbons ls p fg bg n size).countP isJointAtCall = 0 :=
  (countP_iterN_const (c := 0) (fun i _ => by
    simp [ribbonStep, isJointAtCall, List.countP_cons])).trans (Nat.mul_zero n)

theorem countP_seamMel_crs (ls p fg bg : String) (n : Nat) (size : ℚ) :
    (create_surface_ribbons ls p fg bg n size).countP isSeamMel = 0 :=
  (countP_iterN_const (c := 0) (fun i _ => by
    simp [ribbonStep, isSeamMel, List.countP_cons])).trans (Nat.mul_zero n)

theorem polyToCurveNames_gls (o : Host) (c1 c2 vtx p : String) :
    ((get_lofted_surface o c1 c2 vtx p).1).filterMap polyToCurveName? = [] := by
  by_cases h1 : o.spansU < o.spansV <;>
    by_cases h2 : dot3 ⟨0, 0, 1⟩ o.surfNormal < 0 <;>
      simp [get_lofted_surface, move_Seam, polyToCurveName?, h1, h2]

theorem loftCalls_gls (o : Host) (c1 c2 vtx p : String) :
    ((get_lofted_surface o c1 c2 vtx p).1).filterMap loftCall?
      = [(c1, c2, p ++ "_001_NURBSPlane")] := by
  by_cases h1 : o.spansU < o.spansV <;>
    by_cases h2 : dot3 ⟨0, 0, 1⟩ o.surfNormal < 0 <;>
      simp [get_lofted_surface, move_Seam, loftCall?, h1, h2]

theorem seamSelects_gls (o : Host) (c1 c2 vtx p : String) :
    ((get_lofted_surface o c1 c2 vtx p).1).filterMap seamSelect?
      = [(c1, o.nearestParam c1 (o.pointPos vtx)),
         (c2, o.nearestParam c2 (o.pointPos vtx))] := by
  by_cases h1 : o.spansU < o.spansV <;>
    by_cases h2 : dot3 ⟨0, 0, 1⟩ o.surfNormal < 0 <;>
      simp [get_lofted_surface, move_Seam, seamSelect?, h1, h2]

theorem countP_joint_gls (o : Host) (c1 c2 vtx p : String) :
    ((get_lofted_surface o c1 c2 vtx p).1).countP isJointCall = 0 := by
  by_cases h1 : o.spansU < o.spansV <;>
    by_cases h2 : dot3 ⟨0, 0, 1⟩ o.surfNormal < 0 <;>
      simp [get_lofted_surface, move_Seam, isJointCall, h1, h2, List.countP_append,
        List.countP_cons]

theorem countP_jointAt_gls (o : Host) (c1 c2 vtx p : String) :
    ((get_lofted_surface o c1 c2 vtx p).1).countP isJointAtCall = 0 := by
  by_cases h1 : o.spansU < o.spansV <;>
    by_cases h2 : dot3 ⟨0, 0, 1⟩ o.surfNormal < 0 <;>
      simp [get_lofted_surface, move_Seam, isJointAtCall, h1, h2, List.countP_append,
        List.countP_cons]

theorem countP_seamMel_gls (o : Host) (c1 c2 vtx p : String) :
    ((get_lofted_surface o c1 c2 vtx p).1).countP isSeamMel = 2 := by
  by_cases h1 : o.spansU < o.spansV <;>
    by_cases h2 : dot3 ⟨0, 0, 1⟩ o.surfNormal < 0 <;>
      simp [get_lofted_surface, move_Seam, isSeamMel, h1, h2, List.countP_append,
        List.countP_cons]

theorem cornerUs_gls (o : Host) (c1 c2 vtx p : String) :
    ((get_lofted_surface o c1 c2 vtx p).1).filterMap cornerU? = [] := by
  by_cases h1 : o.spansU < o.spansV <;>
    by_cases h2 : dot3 ⟨0, 0, 1⟩ o.surfNormal < 0 <;>
      simp [get_lofted_surface, move_Seam, cornerU?, h1, h2]

theorem cornerVs_gls (o : Host) (c1 c2 vtx p : String) :
    ((get_lofted_surface o c1 c2 vtx p).1).filterMap cornerV? = [] := by
  by_cases h1 : o.spansU < o.spansV <;>
    by_cases h2 : dot3 ⟨0, 0, 1⟩ o.surfNormal < 0 <;>
      simp [get_lofted_surface, move_Seam, cornerV?, h1, h2]

theorem crv_name_1 (p : String) : p ++ "_00" ++ Nat.repr 1 ++ "_crv" = p ++ "_001_crv" := by
  simp only [String.append_assoc]
  rw [show ("_00" ++ (Nat.repr 1 ++ "_crv") : String) = "_001_crv" from by decide]

theorem crv_name_2 (p : String) : p ++ "_00" ++ Nat.repr 2 ++ "_crv" = p ++ "_002_crv" := by
  simp only [String.append_assoc]
  rw [show ("_00" ++ (Nat.repr 2 ++ "_crv") : String) = "_002_crv" from by decide]

/-- Claim C5: pressing Confirm with two stored edge loops and a vertex
derives exactly two curves, one per selected edge loop and named
prefix_001_crv and prefix_002_crv (the trace opens with the deformer group
followed by the conversion of the first and then the second stored loop);
exactly one surface is lofted, from those two curves; both seam moves (each
selecting the curve point the host reports nearest to the stored vertex)
happen before the loft; one binding joint is created per edge of the first
edge loop; and exactly four corner control joints are placed, at the right
and left corner U values held in the state after the run, at U = 0 and at
U = 1/2, all at V = 1/2 (assuming the constructor defaults for the upper and
lower corner U values and for v_value). -/
theorem C5_user_input_derivation (o : Host) (s : RigState)
    (hu : s.uValue_upper_corner = 0) (hl : s.uValue_lower_corner = 1/2)
    (hv : s.v_value = 1/2) :
    ((user_input o s).1).filterMap polyToCurveName?
      = [s.prefix_text ++ "_001_crv", s.prefix_text ++ "_002_crv"]
    ∧ (user_input o s).1.take 9
      = [ApiCall.group (s.prefix_text ++ "_deformer_grp"),
         ApiCall.select s.first_edge_Loop,
         ApiCall.polyToCurve (s.prefix_text ++ "_001_crv"),
         ApiCall.rebuildCurve (s.prefix_text ++ "_001_crv"),
         ApiCall.selectClear,
         ApiCall.select s.second_edge_Loop,
         ApiCall.polyToCurve (s.prefix_text ++ "_002_crv"),
         ApiCall.rebuildCurve (s.prefix_text ++ "_002_crv"),
         ApiCall.selectClear]
    ∧ ((user_input o s).1).filterMap loftCall?
      = [(s.prefix_text ++ "_001_crv", s.prefix_text ++ "_002_crv",
          s.prefix_text ++ "_001_NURBSPlane")]
    ∧ (user_input o s).1[31]?
      = some (ApiCall.loft (s.prefix_text ++ "_001_crv") (s.prefix_text ++ "_002_crv")
          (s.prefix_text ++ "_001_NURBSPlane"))
    ∧ ((user_input o s).1.take 31).countP isSeamMel = 2
    ∧ (user_input o s).1.countP isSeamMel = 2
    ∧ ((user_input o s).1).filterMap seamSelect?
      = [(s.prefix_text ++ "_001_crv",
          o.nearestParam (s.prefix_text ++ "_001_crv") (o.pointPos s.vertex_on_edge)),
         (s.prefix_text ++ "_002_crv",
          o.nearestParam (s.prefix_text ++ "_002_crv") (o.pointPos s.vertex_on_edge))]
    ∧ (user_input o s).1.countP isJointCall = o.edgeCount s.first_edge_Loop
    ∧ (user_input o s).1.countP isJointAtCall = 4
    ∧ ((user_input o s).1).filterMap cornerU?
      = [(user_input o s).2.uValue_right_corner, (user_input o s).2.uValue_left_corner,
         0, 1/2]
    ∧ ((user_input o s).1).filterMap cornerV? = [1/2, 1/2, 1/2, 1/2] := by
  refine ⟨?_, ?_, ?_, ?_, ?_, ?_, ?_, ?_, ?_, ?_, ?_⟩
  · simp only [user_input, List.filterMap_append]
    rw [polyToCurveNames_gls, polyToCurveNames_crs]
    simp [get_edge_curve, get_edge_count, get_reference_size, get_corner_point,
      set_control_joints, polyToCurveName?, crv_name_1, crv_name_2]
  · simp [user_input, get_edge_curve, crv_name_1, crv_name_2]
  · simp only [user_input, List.filterMap_append]
    rw [loftCalls_gls, loftCalls_crs]
    simp [get_edge_curve, get_edge_count, get_reference_size, get_corner_point,
      set_control_joints, loftCall?, crv_name_1, crv_name_2]
  · simp [user_input, get_edge_curve, get_edge_count, get_reference_size,
      get_lofted_surface, move_Seam, crv_name_1, crv_name_2]
  · simp [user_input, get_edge_curve, get_edge_count, get_reference_size,
      get_lofted_surface, move_Seam, isSeamMel, List.countP_cons]
  · simp only [user_input, List.countP_append]
    rw [countP_seamMel_gls, countP_seamMel_crs]
    simp [get_edge_curve, get_edge_count, get_reference_size, get_corner_point,
      set_control_joints, isSeamMel, List.countP_cons]
  · simp only [user_input, List.filterMap_append]
    rw [seamSelects_gls, seamSelects_crs]
    simp [get_edge_curve, get_edge_count, get_reference_size, get_corner_point,
      set_control_joints, seamSelect?, crv_name_1, crv_name_2]
  · simp only [user_input, List.countP_append]
    rw [countP_joint_gls, countP_joint_crs]
    simp [get_edge_curve, get_edge_count, get_reference_size, get_corner_point,
      set_control_joints, isJointCall, List.countP_cons]
  · simp only [user_input, List.countP_append]
    rw [countP_jointAt_gls, countP_jointAt_crs]
    simp [get_edge_curve, get_edge_count, get_reference_size, get_corner_point,
      set_control_joints, isJointAtCall, List.countP_cons]
  · simp only [user_input, List.filterMap_append]
    rw [cornerUs_gls, cornerUs_crs]
    simp [get_edge_curve, get_edge_count, get_reference_size, get_corner_point,
      set_control_joints, cornerU?, hu, hl]
  · simp only [user_input, List.filterMap_append]
    rw [cornerVs_gls, cornerVs_crs]
    simp [get_edge_curve, get_edge_count, get_reference_size, get_corner_point,
      set_control_joints, cornerV?, hv]

/-- A concrete host oracle: a mouth mesh whose first edge loop has two
edges, whose lofted surface has more U than V spans, whose normal already
points along positive z, and whose left bounding-box corner maps to a larger
U value than the right one. -/
def o0 : Host where
  pointPos := fun _ => ⟨0, 0, 0⟩
  nearestParam := fun _ _ => 0
  curvePoint := fun _ => ⟨0, 0, 0⟩
  dist := fun _ _ => 3
  edgeCount := fun _ => 2
  spansU := 4
  spansV := 1
  surfNormal := ⟨0, 0, 1⟩
  bbox := ⟨-1, -1, 0, 1, 1, 0⟩
  closestU := fun x _ _ => if x < 0 then (3/4 : ℚ) else (1/4)
  folPos := fun u v => ⟨u, v, 0⟩
  folRot := fun _ _ => ⟨0, 0, 0⟩

/-- A concrete dialog state: the constructor defaults with two stored edge
loops and a stored vertex, prefix text Lip. -/
def s0 : RigState :=
  { initState with
    prefix_text := "Lip",
    first_edge_Loop := ["mesh.e[1]", "mesh.e[2]"],
    second_edge_Loop := ["mesh.e[11]", "mesh.e[12]"],
    vertex_on_edge := "mesh.vtx[5]" }

/-- Witness for C5 at the concrete oracle and state. -/
theorem C5_witness :
    s0.uValue_upper_corner = 0 ∧ s0.uValue_lower_corner = 1/2 ∧ s0.v_value = 1/2
    ∧ (user_input o0 s0).1.countP isJointCall = o0.edgeCount s0.first_edge_Loop
    ∧ (user_input o0 s0).1.countP isJointAtCall = 4 :=
  ⟨rfl, rfl, rfl,
   (C5_user_input_derivation o0 s0 rfl rfl rfl).2.2.2.2.2.2.2.1,
   (C5_user_input_derivation o0 s0 rfl rfl rfl).2.2.2.2.2.2.2.2.1⟩

/-- Claim C6: the rig construction is deterministic.  The full run (Confirm,
slider, Finish) is a pure function of the stored state (selections, prefix
text), the slider value and the host query results, so two runs with equal
inputs issue the identical invocation sequence, same node types, names and
parameters in the same order. -/
theorem C6_deterministic (cfg : ToolCfg) (o1 o2 : Host) (n1 n2 : Nat) (s1 s2 : RigState)
    (ho : o1 = o2) (hn : n1 = n2) (hs : s1 = s2) :
    runAll cfg o1 n1 s1 = runAll cfg o2 n2 s2 := by
  subst ho
  subst hn
  subst hs
  rfl

/-- Witness for C6 at the concrete oracle and state. -/
theorem C6_witness :
    (o0 = o0 ∧ 2 = 2 ∧ s0 = s0) ∧ runAll autoCfg o0 2 s0 = runAll autoCfg o0 2 s0 :=
  ⟨⟨rfl, rfl, rfl⟩, C6_deterministic autoCfg o0 o0 2 2 s0 s0 rfl rfl rfl⟩

/-- Claim C4 fails on the code: with prefix Lip and slider value 1 the
segment_joints iteration names its four control joints with the stray
leading comma of the f-string ,prefix_QQ_i; create_controller therefore
names the segment controllers with the same leading comma; and the
create_blend lookups with patterns such as Lip_RU_*_ctrl then match none of
the eight controllers in the scene, so create_blend_for_segment_controller
issues no parent constraint at all, where the claim expects two
maintain-offset constraints per segment controller buffer group. -/
theorem C4_blend_never_wired :
    ((segStep o0 { s0 with pfx := "Lip" } 1 ("G") 1).2).map JointRec.name
      = [",Lip_RU_1_ctrl_jnt", ",Lip_RD_1_ctrl_jnt",
         ",Lip_LU_1_ctrl_jnt", ",Lip_LD_1_ctrl_jnt"]
    ∧ (create_controller ⟨",Lip_RU_1_ctrl_jnt", 0, 0, ⟨0, 0, 0⟩, ⟨0, 0, 0⟩⟩ ("G") 1).map
        Prod.snd = some (",Lip_RU_1_ctrl")
    ∧ create_blend_for_segment_controller
        ["Lip_R_ctrl", "Lip_L_ctrl", "Lip_U_ctrl", "Lip_D_ctrl",
         ",Lip_RU_1_ctrl", ",Lip_RD_1_ctrl", ",Lip_LU_1_ctrl", ",Lip_LD_1_ctrl"]
        ("Lip") = [] := by
  refine ⟨?_, ?_, ?_⟩ <;> decide

/-- Counterexample for C7 as stated: at identical concrete inputs the two
files issue different invocation sequences already in segment_joints (the
control-joints group name differs by a space), and they present different
window titles. -/
theorem C7_counterexample :
    (segment_joints autoCfg o0 0 { s0 with pfx := "Lip" }).1
      ≠ (segment_joints ribbonCfg o0 0 { s0 with pfx := "Lip" }).1
    ∧ autoCfg.winName ≠ ribbonCfg.winName := by
  constructor <;> decide

/-! ## Renaming machinery for the amended C7 -/

/-- The renaming that maps the auto-file control-joints group name for a
given prefix to the RibbonCode name and fixes every other string. -/
def σA (p : String) : String → String :=
  substOne (p ++ "_control_ joints_grp") (p ++ "_control_joints_grp")

theorem σA_key (p : String) :
    σA p (p ++ "_control_ joints_grp") = p ++ "_control_joints_grp" :=
  substOne_eq _ _

theorem σA_deformer (p x : String) : σA p (x ++ "_deformer_grp") = x ++ "_deformer_grp" :=
  subst_fix_tail (by decide) (by decide) p _ x

theorem σA_crv (p x : String) : σA p (x ++ "_crv") = x ++ "_crv" :=
  subst_fix_tail (by decide) (by decide) p _ x

theorem σA_Shape (p x : String) : σA p (x ++ "Shape") = x ++ "Shape" :=
  subst_fix_tail (by decide) (by decide) p _ x

theorem σA_plane (p x : String) : σA p (x ++ "_001_NURBSPlane") = x ++ "_001_NURBSPlane" :=
  subst_fix_tail (by decide) (by decide) p _ x

theorem σA_follicle_grp (p x : String) : σA p (x ++ "_follicle_grp") = x ++ "_follicle_grp" :=
  subst_fix_tail (by decide) (by decide) p _ x

theorem σA_binding (p x : String) :
    σA p (x ++ "_binding_joints_grp") = x ++ "_binding_joints_grp" :=
  subst_fix_tail (by decide) (by decide) p _ x

theorem σA_fol (p x : String) : σA p (x ++ "_fol") = x ++ "_fol" :=
  subst_fix_tail (by decide) (by decide) p _ x

theorem σA_bnd (p x : String) : σA p (x ++ "_bnd_jnt") = x ++ "_bnd_jnt" :=
  subst_fix_tail (by decide) (by decide) p _ x

theorem σA_ctrl_jnt (p x : String) : σA p (x ++ "_ctrl_jnt") = x ++ "_ctrl_jnt" :=
  subst_fix_tail (by decide) (by decide) p _ x

theorem σA_buffer (p x : String) : σA p (x ++ "_buffer_grp") = x ++ "_buffer_grp" :=
  subst_fix_tail (by decide) (by decide) p _ x

theorem σA_controller_grp (p x : String) :
    σA p (x ++ "_controller_grp") = x ++ "_controller_grp" :=
  subst_fix_tail (by decide) (by decide) p _ x

theorem σA_skin (p x : String) : σA p (x ++ "_skinCluster") = x ++ "_skinCluster" :=
  subst_fix_tail (by decide) (by decide) p _ x

theorem σA_nearest (p : String) : σA p ("nearestPointOnCurve1") = "nearestPointOnCurve1" :=
  subst_fix_const (by decide) p _

theorem σA_poci (p : String) : σA p ("pointOnCurveInfo1") = "pointOnCurveInfo1" :=
  subst_fix_const (by decide) p _

theorem σA_posi (p : String) : σA p ("pointOnSurfaceInfo1") = "pointOnSurfaceInfo1" :=
  subst_fix_const (by decide) p _

theorem σA_cpos (p : String) : σA p ("closestPointOnSurface1") = "closestPointOnSurface1" :=
  subst_fix_const (by decide) p _

theorem σA_loft1 (p : String) : σA p ("loft1") = "loft1" :=
  subst_fix_const (by decide) p _

theorem σA_folCorner (p : String) : σA p ("follicleCorner") = "follicleCorner" :=
  subst_fix_const (by decide) p _

theorem σA_folCornerShape (p : String) :
    σA p ("follicleCornerShape") = "follicleCornerShape" :=
  subst_fix_const (by decide) p _

theorem σA_short {p a : String} (h : a.length < p.length + 20) : σA p a = a :=
  subst_fix_short h _

/-- Mapping a function that fixes every element of a list is the identity on
the list. -/
theorem map_fix {α : Type} {f : α → α} {l : List α} (h : ∀ x ∈ l, f x = x) :
    l.map f = l := by
  induction l with
  | nil => rfl
  | cons a as ih =>
    rw [List.map_cons, h a (List.mem_cons_self a as), ih (fun x hx => h x (List.mem_cons_of_mem a hx))]

theorem ren_move_Seam (p : String) (o : Host) (pos : Vec3) (c : String)
    (hc : σA p c = c) :
    (move_Seam o pos c).map (ren (σA p)) = move_Seam o pos c := by
  simp [move_Seam, ren, hc, σA_nearest, σA_Shape]

theorem ren_grs (p : String) (o : Host) (c1 c2 : String) :
    ((get_reference_size o c1 c2).1).map (ren (σA p)) = (get_reference_size o c1 c2).1 := by
  simp [get_reference_size, ren, σA_poci, σA_Shape]

theorem ren_gec (p : String) (o : Host) (sel : List String) :
    ((get_edge_count o sel).1).map (ren (σA p)) = (get_edge_count o sel).1 := by
  simp [get_edge_count, ren]

theorem ren_gcp (p : String) (o : Host) (x y z : ℚ) (ls : String)
    (hls : σA p ls = ls) :
    ((get_corner_point o x y z ls).1).map (ren (σA p)) = (get_corner_point o x y z ls).1 := by
  simp [get_corner_point, ren, hls, σA_cpos, σA_Shape]

theorem ren_scj (p : String) (o : Host) (u v : ℚ) (ls pfx0 : String) (size : ℚ)
    (hls : σA p ls = ls) (hname : σA p (pfx0 ++ "_ctrl_jnt") = pfx0 ++ "_ctrl_jnt") :
    ((set_control_joints o u v ls pfx0 size).1).map (ren (σA p))
      = (set_control_joints o u v ls pfx0 size).1 := by
  simp [set_control_joints, ren, hls, hname, σA_folCorner, σA_folCornerShape]

theorem ren_gls (p : String) (o : Host) (c1 c2 vtx p2 : String)
    (hc1 : σA p c1 = c1) (hc2 : σA p c2 = c2) :
    ((get_lofted_surface o c1 c2 vtx p2).1).map (ren (σA p))
      = (get_lofted_surface o c1 c2 vtx p2).1 := by
  by_cases h1 : o.spansU < o.spansV <;>
    by_cases h2 : dot3 ⟨0, 0, 1⟩ o.surfNormal < 0 <;>
      simp [get_lofted_surface, h1, h2, ren, ren_move_Seam p o _ _ hc1,
        ren_move_Seam p o _ _ hc2, hc1, hc2, σA_plane, σA_posi, σA_loft1, σA_Shape]

theorem ren_ribbonStep (p : String) (ls p2 fg bg : String) (n : Nat) (size : ℚ) (i : Nat)
    (hls : σA p ls = ls) (hfg : σA p fg = fg) (hbg : σA p bg = bg) :
    (ribbonStep ls p2 fg bg n size i).map (ren (σA p))
      = ribbonStep ls p2 fg bg n size i := by
  simp [ribbonStep, ren, hls, hfg, hbg, σA_fol, σA_Shape, σA_bnd]

theorem ren_crs (p : String) (ls p2 fg bg : String) (n : Nat) (size : ℚ)
    (hls : σA p ls = ls) (hfg : σA p fg = fg) (hbg : σA p bg = bg) :
    (create_surface_ribbons ls p2 fg bg n size).map (ren (σA p))
      = create_surface_ribbons ls p2 fg bg n size :=
  map_iterN_id (fun i _ => ren_ribbonStep p ls p2 fg bg n size i hls hfg hbg)

theorem gls_snd (o : Host) (c1 c2 vtx p2 : String) :
    (get_lofted_surface o c1 c2 vtx p2).2 = p2 ++ "_001_NURBSPlane" := rfl

theorem map_iterN_eq {α : Type} {g : α → α} {n : Nat} {f f2 : Nat → List α}
    (h : ∀ i, i < n → (f i).map g = f2 i) : (iterN n f).map g = iterN n f2 := by
  induction n with
  | zero => rfl
  | succ n ih =>
    rw [iterN_succ, iterN_succ, List.map_append, ih (fun i hi => h i (by omega)),
      h n (by omega)]

theorem mem_iterN {α : Type} {x : α} {n : Nat} {f : Nat → List α} (h : x ∈ iterN n f) :
    ∃ i, i < n ∧ x ∈ f i := by
  unfold iterN at h
  rw [List.mem_flatten] at h
  obtain ⟨l, hl, hx⟩ := h
  rw [List.mem_map] at hl
  obtain ⟨i, hi, rfl⟩ := hl
  exact ⟨i, List.mem_range.mp hi, hx⟩

/-- create_controller succeeds on any joint named x_ctrl_jnt and, when the
leading part x is short enough relative to the prefix, the whole trace and
the controller name are fixed by the renaming. -/
theorem ren_create_controller {p : String} (j : JointRec) (grp : String) (size : ℚ)
    (hj : ∃ x, j.name = x ++ "_ctrl_jnt" ∧ x.length ≤ p.length + 7)
    (hgrp : σA p grp = grp) :
    ∃ T c, create_controller j grp size = some (T, c)
      ∧ T.map (ren (σA p)) = T ∧ σA p c = c := by
  obtain ⟨x, hx, hlen⟩ := hj
  obtain ⟨i, hi, heq⟩ := findSub_ctrl_jnt x
  have heq2 : findSub ("_jnt") j.name = some i := by rw [hx]; exact heq
  have hclen : (String.mk (j.name.data.take i)).length < p.length + 20 := by
    have h1 : (j.name.data.take i).length ≤ i := by
      rw [List.length_take]
      exact Nat.min_le_left _ _
    have h2 : (String.mk (j.name.data.take i)).length = (j.name.data.take i).length := rfl
    omega
  have hc : σA p (String.mk (j.name.data.take i)) = String.mk (j.name.data.take i) :=
    σA_short hclen
  have hcgrp : σA p (String.mk (j.name.data.take i) ++ "_grp")
      = String.mk (j.name.data.take i) ++ "_grp" := by
    apply σA_short
    rw [String.length_append]
    have h2 : (String.mk (j.name.data.take i)).length ≤ i := by
      show (j.name.data.take i).length ≤ i
      rw [List.length_take]
      exact Nat.min_le_left _ _
    have h3 : ("_grp" : String).length = 4 := rfl
    omega
  have hname : σA p j.name = j.name := by rw [hx]; exact σA_ctrl_jnt p x
  unfold create_controller
  rw [heq2]
  refine ⟨_, _, rfl, ?_, hc⟩
  by_cases hns : ((findSub ("_L_") j.name).isNone && (findSub ("_R_") j.name).isNone) = true <;>
    simp [ren, hns, hc, hcgrp, hname, hgrp, σA_buffer, σA_Shape]

/-- The finish_rig controller loop succeeds on a list of well-shaped control
joints, and its trace and the controller names are fixed by the renaming. -/
theorem ren_ccFold {p : String} (js : List JointRec) (grp : String) (size : ℚ)
    (hjs : ∀ j ∈ js, ∃ x, j.name = x ++ "_ctrl_jnt" ∧ x.length ≤ p.length + 7)
    (hgrp : σA p grp = grp) :
    ∃ T C, ccFold js grp size = some (T, C)
      ∧ T.map (ren (σA p)) = T ∧ ∀ c ∈ C, σA p c = c := by
  induction js with
  | nil => exact ⟨[], [], rfl, rfl, by simp⟩
  | cons j js ih =>
    obtain ⟨T1, c1, he1, hm1, hc1⟩ :=
      ren_create_controller j grp size (hjs j (List.mem_cons_self j js)) hgrp
    obtain ⟨T2, C2, he2, hm2, hc2⟩ := ih (fun x hx => hjs x (List.mem_cons_of_mem j hx))
    refine ⟨T1 ++ T2, c1 :: C2, ?_, ?_, ?_⟩
    · simp [ccFold, he1, he2]
    · rw [List.map_append, hm1, hm2]
    · intro c hc
      rcases List.mem_cons.mp hc with h | h
      · rw [h]; exact hc1
      · exact hc2 c h

theorem ren_blendPairs {p : String} (side middle : List String) (len : Nat)
    (cs : List String) (hside : ∀ x ∈ side, σA p x = x)
    (hmid : ∀ x ∈ middle, σA p x = x) :
    ∀ i, (blendPairs side middle len i cs).map (ren (σA p)) = blendPairs side middle len i cs := by
  induction cs with
  | nil => intro i; rfl
  | cons c cs ih =>
    intro i
    simp [blendPairs, ren, map_fix hside, map_fix hmid, σA_buffer, ih (i + 1)]

/-- The blend wiring of finish_rig only references controller names and
their buffer groups, all fixed by the renaming. -/
theorem ren_blend {p : String} (scene : List String) (pfx1 : String)
    (hsc : ∀ x ∈ scene, σA p x = x) :
    (create_blend_for_segment_controller scene pfx1).map (ren (σA p))
      = create_blend_for_segment_controller scene pfx1 := by
  have hf : ∀ q : String → Bool, ∀ x ∈ scene.filter q, σA p x = x :=
    fun q x hx => hsc x (List.mem_of_mem_filter hx)
  unfold create_blend_for_segment_controller create_blend
  simp only [List.map_append]
  rw [ren_blendPairs _ _ _ _ (hf _) (hf _), ren_blendPairs _ _ _ _ (hf _) (hf _),
    ren_blendPairs _ _ _ _ (hf _) (hf _), ren_blendPairs _ _ _ _ (hf _) (hf _)]

theorem segment_joints_none (cfg : ToolCfg) (o : Host) (value : Nat) (s : RigState)
    (h : s.control_joint_grp = none) :
    segment_joints cfg o value s
      = (ApiCall.group (s.pfx ++ cfg.ctrlGrpTail)
          :: iterN value (fun j => (segStep o s value (s.pfx ++ cfg.ctrlGrpTail) (j + 1)).1),
         { s with inbetween_joints_text := Nat.repr value,
                  control_joint_grp := some (s.pfx ++ cfg.ctrlGrpTail,
                    seg_recs o s value (s.pfx ++ cfg.ctrlGrpTail)) }) := by
  simp [segment_joints, h]

theorem segStep_snd_grp (o : Host) (s : RigState) (v : Nat) (g g2 : String) (i : Nat) :
    (segStep o s v g i).2 = (segStep o s v g2 i).2 := rfl

theorem seg_recs_grp (o : Host) (s : RigState) (v : Nat) (g g2 : String) :
    seg_recs o s v g = seg_recs o s v g2 := rfl

theorem scj_snd_name (o : Host) (u v : ℚ) (ls pfx0 : String) (size : ℚ) :
    ((set_control_joints o u v ls pfx0 size).2).name = pfx0 ++ "_ctrl_jnt" := rfl

theorem ren_segStep (p : String) (o : Host) (s : RigState) (v : Nat) (g g2 : String)
    (i : Nat) (hls : σA p s.lofted_surface = s.lofted_surface) (hg : σA p g = g2) :
    ((segStep o s v g i).1).map (ren (σA p)) = (segStep o s v g2 i).1 := by
  simp [segStep, ren, ren_scj, hls, hg, scj_snd_name, σA_ctrl_jnt]

/-- The whole user_input trace is fixed by the renaming: none of the nodes
it touches is the control-joints group. -/
theorem ren_user_input (o : Host) (s : RigState) :
    ((user_input o s).1).map (ren (σA s.prefix_text)) = (user_input o s).1 := by
  simp [user_input, get_edge_curve, ren, gls_snd,
    ren_gec, ren_grs, ren_gls, ren_crs, ren_gcp, ren_scj,
    σA_deformer, σA_crv, σA_plane, σA_follicle_grp, σA_binding, σA_ctrl_jnt]

theorem seg_recs_eq (o : Host) (s : RigState) (v : Nat) (g : String) :
    seg_recs o s v g = iterN v (fun j => (segStep o s v g (j + 1)).2) := rfl

/-- Every segment control joint is named x_ctrl_jnt with a short leading
part: a comma, the prefix, a quadrant tag and at most two digits. -/
theorem good_seg_recs (p : String) (o : Host) (s1 : RigState) (n : Nat) (g : String)
    (hn : n ≤ 10) (hpfx : s1.pfx = p) :
    ∀ j ∈ seg_recs o s1 n g, ∃ x, j.name = x ++ "_ctrl_jnt" ∧ x.length ≤ p.length + 7 := by
  intro j hj
  rw [seg_recs_eq] at hj
  obtain ⟨i, hi, hmem⟩ := mem_iterN hj
  have hrep : (Nat.repr (i + 1)).length ≤ 2 := repr_len_le (by omega)
  have l1 : (("," : String)).length = 1 := rfl
  have l2 : (("_RU_" : String)).length = 4 := rfl
  have l3 : (("_RD_" : String)).length = 4 := rfl
  have l4 : (("_LU_" : String)).length = 4 := rfl
  have l5 : (("_LD_" : String)).length = 4 := rfl
  simp only [segStep, List.mem_cons, List.not_mem_nil, or_false] at hmem
  rcases hmem with h | h | h | h <;>
    exact ⟨_, by rw [h, scj_snd_name, hpfx],
      by simp only [String.length_append]; omega⟩

/-- Evaluation of finish_rig when the control-joints group exists and the
controller loop succeeds. -/
theorem finish_rig_some (cfg : ToolCfg) (o : Host) (s : RigState) (grp : String)
    (R : List JointRec) (T : List ApiCall) (C : List String)
    (hgrp : s.control_joint_grp = some (grp, R))
    (hfold : ccFold ([s.right_corner_joint, s.left_corner_joint, s.upper_corner_joint,
        s.lower_corner_joint] ++ R) (s.pfx ++ "_controller_grp") s.size = some (T, C)) :
    ∃ st, finish_rig cfg o s = some (
      [ApiCall.deleteNode s.curve_1, ApiCall.deleteNode s.curve_2]
      ++ [ApiCall.parentTo s.right_corner_joint.name grp,
          ApiCall.parentTo s.left_corner_joint.name grp,
          ApiCall.parentTo s.upper_corner_joint.name grp,
          ApiCall.parentTo s.lower_corner_joint.name grp,
          ApiCall.group (s.pfx ++ "_controller_grp"),
          ApiCall.skinCluster (([s.right_corner_joint, s.left_corner_joint,
              s.upper_corner_joint, s.lower_corner_joint] ++ R).map JointRec.name)
            s.lofted_surface (s.pfx ++ "_skinCluster")]
      ++ T ++ [ApiCall.selectClear]
      ++ create_blend_for_segment_controller C s.pfx
      ++ [ApiCall.setAttrB s.binding_joint_grp ("visibility") true,
          ApiCall.setAttrB grp ("visibility") false], st) := by
  refine ⟨{ s with
      controller_grp := s.pfx ++ "_controller_grp",
      control_joint_grp := some (grp, R) }, ?_⟩
  simp only [finish_rig, hgrp, hfold, List.append_nil]

/-- Claim C7 amended: from a fresh state (no control-joints group yet) and
for any slider value the GUI admits (0 to 10), the two files issue the same
sequence of host-API invocations with the same node types, names, parameters
and wiring, except that the window titles differ (Auto Lip Rigger versus
Mouth Rigger) and every reference to the control-joints group uses the name
prefix_control_ joints_grp (with a space) in auto_lip_rigger.py but
prefix_control_joints_grp in RibbonCode_v015.py: renaming that single group
name maps the auto trace exactly onto the RibbonCode trace. -/
theorem C7_files_equal_up_to_group_name (o : Host) (n : Nat) (s : RigState)
    (hn : n ≤ 10) (hg : s.control_joint_grp = none) :
    (runAll autoCfg o n s).map (List.map (ren (σA s.prefix_text)))
      = runAll ribbonCfg o n s := by
  have hs1grp : (user_input o s).2.control_joint_grp = none := hg
  have hσls : σA s.prefix_text ((user_input o s).2).lofted_surface
      = ((user_input o s).2).lofted_surface := by
    have e : ((user_input o s).2).lofted_surface
        = s.prefix_text ++ "_001_NURBSPlane" := rfl
    rw [e]
    exact σA_plane _ _
  have hgA : σA s.prefix_text ((user_input o s).2.pfx ++ autoCfg.ctrlGrpTail)
      = (user_input o s).2.pfx ++ ribbonCfg.ctrlGrpTail := by
    have e1 : (user_input o s).2.pfx = s.prefix_text := rfl
    rw [e1]
    exact σA_key s.prefix_text
  have hql : ∀ q : String, q.length = 2
      → (s.prefix_text ++ q).length ≤ s.prefix_text.length + 7 := by
    intro q hq
    rw [String.length_append, hq]
    omega
  have hRn : (user_input o s).2.right_corner_joint.name
      = (s.prefix_text ++ "_R") ++ "_ctrl_jnt" := rfl
  have hLn : (user_input o s).2.left_corner_joint.name
      = (s.prefix_text ++ "_L") ++ "_ctrl_jnt" := rfl
  have hUn : (user_input o s).2.upper_corner_joint.name
      = (s.prefix_text ++ "_U") ++ "_ctrl_jnt" := rfl
  have hDn : (user_input o s).2.lower_corner_joint.name
      = (s.prefix_text ++ "_D") ++ "_ctrl_jnt" := rfl
  have hgood : ∀ j ∈ ([(user_input o s).2.right_corner_joint,
      (user_input o s).2.left_corner_joint, (user_input o s).2.upper_corner_joint,
      (user_input o s).2.lower_corner_joint]
        ++ seg_recs o (user_input o s).2 n
            ((user_input o s).2.pfx ++ autoCfg.ctrlGrpTail)),
      ∃ x, j.name = x ++ "_ctrl_jnt" ∧ x.length ≤ s.prefix_text.length + 7 := by
    intro j hj
    rcases List.mem_append.mp hj with h4 | hseg
    · simp only [List.mem_cons, List.not_mem_nil, or_false] at h4
      rcases h4 with h | h | h | h <;> subst h
      · exact ⟨_, hRn, hql ("_R") rfl⟩
      · exact ⟨_, hLn, hql ("_L") rfl⟩
      · exact ⟨_, hUn, hql ("_U") rfl⟩
      · exact ⟨_, hDn, hql ("_D") rfl⟩
    · exact good_seg_recs s.prefix_text o (user_input o s).2 n _ hn rfl j hseg
  obtain ⟨T, C, hfold, hmT, hC⟩ :=
    ren_ccFold (p := s.prefix_text)
      ([(user_input o s).2.right_corner_joint, (user_input o s).2.left_corner_joint,
        (user_input o s).2.upper_corner_joint, (user_input o s).2.lower_corner_joint]
        ++ seg_recs o (user_input o s).2 n
            ((user_input o s).2.pfx ++ autoCfg.ctrlGrpTail))
      (s.prefix_text ++ "_controller_grp") (user_input o s).2.size hgood
      (σA_controller_grp s.prefix_text s.prefix_text)
  have hsegnames : ∀ x ∈ (seg_recs o (user_input o s).2 n
      ((user_input o s).2.pfx ++ autoCfg.ctrlGrpTail)).map JointRec.name,
      σA s.prefix_text x = x := by
    intro x hx
    obtain ⟨j, hj, rfl⟩ := List.mem_map.mp hx
    obtain ⟨y, hy, hyl⟩ := good_seg_recs s.prefix_text o (user_input o s).2 n _ hn rfl j hj
    rw [hy]
    exact σA_ctrl_jnt _ _
  have hsegA := segment_joints_none autoCfg o n (user_input o s).2 hs1grp
  have hsegB := segment_joints_none ribbonCfg o n (user_input o s).2 hs1grp
  obtain ⟨stA, hfA⟩ : ∃ st, finish_rig autoCfg o
      { (user_input o s).2 with
        inbetween_joints_text := Nat.repr n,
        control_joint_grp := some ((user_input o s).2.pfx ++ autoCfg.ctrlGrpTail,
          seg_recs o (user_input o s).2 n
            ((user_input o s).2.pfx ++ autoCfg.ctrlGrpTail)) }
      = some (
      [ApiCall.deleteNode (s.prefix_text ++ "_00" ++ Nat.repr 1 ++ "_crv"),
       ApiCall.deleteNode (s.prefix_text ++ "_00" ++ Nat.repr 2 ++ "_crv")]
      ++ [ApiCall.parentTo ((s.prefix_text ++ "_R") ++ "_ctrl_jnt")
            ((user_input o s).2.pfx ++ autoCfg.ctrlGrpTail),
          ApiCall.parentTo ((s.prefix_text ++ "_L") ++ "_ctrl_jnt")
            ((user_input o s).2.pfx ++ autoCfg.ctrlGrpTail),
          ApiCall.parentTo ((s.prefix_text ++ "_U") ++ "_ctrl_jnt")
            ((user_input o s).2.pfx ++ autoCfg.ctrlGrpTail),
          ApiCall.parentTo ((s.prefix_text ++ "_D") ++ "_ctrl_jnt")
            ((user_input o s).2.pfx ++ autoCfg.ctrlGrpTail),
          ApiCall.group (s.prefix_text ++ "_controller_grp"),
          ApiCall.skinCluster
            ([(s.prefix_text ++ "_R") ++ "_ctrl_jnt", (s.prefix_text ++ "_L") ++ "_ctrl_jnt",
              (s.prefix_text ++ "_U") ++ "_ctrl_jnt", (s.prefix_text ++ "_D") ++ "_ctrl_jnt"]
              ++ (seg_recs o (user_input o s).2 n
                  ((user_input o s).2.pfx ++ autoCfg.ctrlGrpTail)).map JointRec.name)
            (s.prefix_text ++ "_001_NURBSPlane") (s.prefix_text ++ "_skinCluster")]
      ++ T ++ [ApiCall.selectClear]
      ++ create_blend_for_segment_controller C s.prefix_text
      ++ [ApiCall.setAttrB (s.prefix_text ++ "_binding_joints_grp") ("visibility") true,
          ApiCall.setAttrB ((user_input o s).2.pfx ++ autoCfg.ctrlGrpTail)
            ("visibility") false], st) :=
    finish_rig_some autoCfg o _ _ _ T C rfl hfold
  obtain ⟨stB, hfB⟩ : ∃ st, finish_rig ribbonCfg o
      { (user_input o s).2 with
        inbetween_joints_text := Nat.repr n,
        control_joint_grp := some ((user_input o s).2.pfx ++ ribbonCfg.ctrlGrpTail,
          seg_recs o (user_input o s).2 n
            ((user_input o s).2.pfx ++ ribbonCfg.ctrlGrpTail)) }
      = some (
      [ApiCall.deleteNode (s.prefix_text ++ "_00" ++ Nat.repr 1 ++ "_crv"),
       ApiCall.deleteNode (s.prefix_text ++ "_00" ++ Nat.repr 2 ++ "_crv")]
      ++ [ApiCall.parentTo ((s.prefix_text ++ "_R") ++ "_ctrl_jnt")
            ((user_input o s).2.pfx ++ ribbonCfg.ctrlGrpTail),
          ApiCall.parentTo ((s.prefix_text ++ "_L") ++ "_ctrl_jnt")
            ((user_input o s).2.pfx ++ ribbonCfg.ctrlGrpTail),
          ApiCall.parentTo ((s.prefix_text ++ "_U") ++ "_ctrl_jnt")
            ((user_input o s).2.pfx ++ ribbonCfg.ctrlGrpTail),
          ApiCall.parentTo ((s.prefix_text ++ "_D") ++ "_ctrl_jnt")
            ((user_input o s).2.pfx ++ ribbonCfg.ctrlGrpTail),
          ApiCall.group (s.prefix_text ++ "_controller_grp"),
          ApiCall.skinCluster
            ([(s.prefix_text ++ "_R") ++ "_ctrl_jnt", (s.prefix_text ++ "_L") ++ "_ctrl_jnt",
              (s.prefix_text ++ "_U") ++ "_ctrl_jnt", (s.prefix_text ++ "_D") ++ "_ctrl_jnt"]
              ++ (seg_recs o (user_input o s).2 n
                  ((user_input o s).2.pfx ++ autoCfg.ctrlGrpTail)).map JointRec.name)
            (s.prefix_text ++ "_001_NURBSPlane") (s.prefix_text ++ "_skinCluster")]
      ++ T ++ [ApiCall.selectClear]
      ++ create_blend_for_segment_controller C s.prefix_text
      ++ [ApiCall.setAttrB (s.prefix_text ++ "_binding_joints_grp") ("visibility") true,
          ApiCall.setAttrB ((user_input o s).2.pfx ++ ribbonCfg.ctrlGrpTail)
            ("visibility") false], st) :=
    finish_rig_some ribbonCfg o _ _ _ T C rfl hfold
  simp only [runAll, hsegA, hsegB]
  rw [hfA, hfB]
  simp only [Option.map_some']
  refine congrArg some ?_
  rw [List.map_append, List.map_append, ren_user_input, List.map_cons,
    map_iterN_eq (fun i _ =>
      ren_segStep s.prefix_text o (user_input o s).2 n _ _ (i + 1) hσls hgA)]
  simp only [List.map_append, List.map_cons, List.map_nil, ren]
  rw [hmT, ren_blend C s.prefix_text hC, map_fix hsegnames]
  simp only [σA_crv, σA_ctrl_jnt, σA_controller_grp, σA_plane, σA_skin, σA_binding, hgA]

/-- Witness for the amended C7 at the concrete oracle and state. -/
theorem C7_witness :
    2 ≤ 10 ∧ s0.control_joint_grp = none
    ∧ (runAll autoCfg o0 2 s0).map (List.map (ren (σA s0.prefix_text)))
        = runAll ribbonCfg o0 2 s0 :=
  ⟨by decide, rfl, C7_files_equal_up_to_group_name o0 2 s0 (by decide) rfl⟩

end LipRig
